import Mathlib

/-!
JavaEnvironmentFactory: launch of the JVM singleton and the thread table.

A shallow embedding of `src/lib/data/parser/java/JavaEnvironmentFactory.cpp`:
the process-wide singleton that launches the JVM (`createInstance`,
`getInstance`) and the reference-counted table that maps host threads to
their JNI environments (`createEnvironment`, `registerEnvironment`,
`unregisterEnvironment`).

Stateful code is embedded by explicit state passing.  Every call returns the
new state together with the list of externally visible actions it performed
(`Event`), in program order.  Calls into collaborators whose result the code
consumes (file system, `dlopen`, `JNI_CreateJavaVM`, `AttachCurrentThread`,
application settings) are oracles supplied by the caller of the model.
-/

/-- Value of `std::this_thread::get_id()`. -/
abbrev ThreadId := Nat

/-- A `JNIEnv*` pointer value. -/
abbrev JNIEnvPtr := Nat

/-- A `JavaVM*` pointer value. -/
abbrev JavaVMPtr := Nat

/-- The `JavaVMInitArgs` record handed to `JNI_CreateJavaVM`; `options` holds the
`optionString` of each of the `nOptions` entries of the options array. -/
structure JavaVMInitArgs where
  version : Int
  nOptions : Nat
  options : List String
  ignoreUnrecognized : Bool
  deriving DecidableEq, Repr

/-- Externally visible actions, recorded in program order. -/
inductive Event where
  /-- `LOG_ERROR(msg)`. -/
  | logError (msg : String)
  /-- Modelled from the spec: `MessageStatus(status, isError, showLoader).dispatch()`.
  The class is declared in `utility/messaging/type/MessageStatus.h`, which is not
  among the sources; per the spec the notification carries a human-readable
  message and a flag indicating that it is an error, taken to be the second
  constructor argument. -/
  | messageStatus (status : String) (isError : Bool) (showLoader : Bool)
  /-- `putenv(assignment)`. -/
  | putenv (assignment : String)
  /-- `FileSystem::exists(path)`. -/
  | fileExists (path : String)
  /-- `dlopen(path, RTLD_NOW)`. -/
  | dlopen (path : String)
  /-- `JNI_CreateJavaVM(&jvm, &env, &vm_args)`. -/
  | createJavaVM (vm_args : JavaVMInitArgs)
  /-- `jvm->AttachCurrentThread(..)` executed on thread `thread`. -/
  | attachCurrentThread (jvm : JavaVMPtr) (thread : ThreadId)
  /-- `jvm->DetachCurrentThread()` executed on thread `thread`. -/
  | detachCurrentThread (jvm : JavaVMPtr) (thread : ThreadId)
  deriving DecidableEq, Repr

/-- Largest value of the 32-bit `int` (`INT_MAX`). -/
def INT_MAX : Int := 2147483647

/-- Smallest value of the 32-bit `int` (`INT_MIN`). -/
def INT_MIN : Int := -2147483648

/-- The value a 32-bit two's complement `int` holds after an arithmetic result
`x`: `x` reduced modulo `2^32` into the range `INT_MIN .. INT_MAX`.  This is
what `++` and `--` on the user count compute in the compiled code: one step
above `INT_MAX` is `INT_MIN`, one step below `INT_MIN` is `INT_MAX`. -/
def wrapInt32 (x : Int) : Int := (x + 2147483648) % 4294967296 - 2147483648

/-- The member `std::map<std::thread::id, std::pair<JNIEnv*, int>>`, as a finite
map given by its lookup function: `none` is `find(..) == end()`.  The `int`
user count is an `Int` that is kept in the range of a 32-bit `int` by
`wrapInt32` at every increment and decrement. -/
abbrev ThreadTable := ThreadId → Option (JNIEnvPtr × Int)

namespace ThreadTable

/-- The empty map. -/
def empty : ThreadTable := fun _ => none

/-- Assignment through an iterator: `it->second = v` for the entry of `key`. -/
def set (m : ThreadTable) (key : ThreadId) (v : JNIEnvPtr × Int) : ThreadTable :=
  fun k => if k = key then some v else m k

/-- `std::map::insert(std::make_pair(key, v))`: inserts only if `key` is absent. -/
def insert (m : ThreadTable) (key : ThreadId) (v : JNIEnvPtr × Int) : ThreadTable :=
  match m key with
  | some _ => m
  | none => m.set key v

/-- `std::map::erase(it)` for the entry of `key`. -/
def erase (m : ThreadTable) (key : ThreadId) : ThreadTable :=
  fun k => if k = key then none else m k

end ThreadTable

/-- The object state of a `JavaEnvironmentFactory` (the mutex is not modelled:
each member function body is one critical section and is embedded as one
atomic step). -/
structure JavaEnvironmentFactory where
  m_jvm : JavaVMPtr
  m_threadIdToEnvAndUserCount : ThreadTable

/-- Modelled from the spec: the class `JavaEnvironment` (its header and
constructor are not among the sources).  Per the spec, the handle wraps the
runtime instance and the resolved context pointer, and constructing it does
not itself change the user count. -/
structure JavaEnvironment where
  m_jvm : JavaVMPtr
  m_env : JNIEnvPtr
  deriving DecidableEq, Repr

/-- What a member function of the factory returns: the updated object and
the actions performed. -/
structure Outcome where
  factory : JavaEnvironmentFactory
  events : List Event

namespace JavaEnvironmentFactory

/-- `JavaEnvironmentFactory::JavaEnvironmentFactory(JavaVM* jvm)`: the table
member is default-constructed (empty). -/
def construct (jvm : JavaVMPtr) : JavaEnvironmentFactory :=
  { m_jvm := jvm, m_threadIdToEnvAndUserCount := ThreadTable.empty }

/-- `JavaEnvironmentFactory::createEnvironment()` (lines 148-170), executed on
thread `currentThreadId`; `attached` is the `JNIEnv*` that
`AttachCurrentThread` stores in `env` if it is called. -/
def createEnvironment (self : JavaEnvironmentFactory) (currentThreadId : ThreadId)
    (attached : JNIEnvPtr) : Outcome × JavaEnvironment :=
  match self.m_threadIdToEnvAndUserCount currentThreadId with
  | some it =>
    ({ factory := self, events := [] }, { m_jvm := self.m_jvm, m_env := it.1 })
  | none =>
    ({ factory :=
        { self with
          m_threadIdToEnvAndUserCount :=
            self.m_threadIdToEnvAndUserCount.insert currentThreadId (attached, 0) },
       events := [Event.attachCurrentThread self.m_jvm currentThreadId] },
     { m_jvm := self.m_jvm, m_env := attached })

/-- `JavaEnvironmentFactory::registerEnvironment()` (lines 181-196). -/
def registerEnvironment (self : JavaEnvironmentFactory) (currentThreadId : ThreadId) :
    Outcome :=
  match self.m_threadIdToEnvAndUserCount currentThreadId with
  | some it =>
    { factory :=
        { self with
          m_threadIdToEnvAndUserCount :=
            self.m_threadIdToEnvAndUserCount.set currentThreadId
              (it.1, wrapInt32 (it.2 + 1)) },
      events := [] }
  | none =>
    { factory := self,
      events :=
        [Event.logError "something went horribly wrong while registering a java environment"] }

/-- `JavaEnvironmentFactory::unregisterEnvironment()` (lines 198-218). -/
def unregisterEnvironment (self : JavaEnvironmentFactory) (currentThreadId : ThreadId) :
    Outcome :=
  match self.m_threadIdToEnvAndUserCount currentThreadId with
  | some it =>
    if wrapInt32 (it.2 - 1) = 0 then
      { factory :=
          { self with
            m_threadIdToEnvAndUserCount :=
              self.m_threadIdToEnvAndUserCount.erase currentThreadId },
        events := [Event.detachCurrentThread self.m_jvm currentThreadId] }
    else
      { factory :=
          { self with
            m_threadIdToEnvAndUserCount :=
              self.m_threadIdToEnvAndUserCount.set currentThreadId
                (it.1, wrapInt32 (it.2 - 1)) },
        events := [] }
  | none =>
    { factory := self,
      events :=
        [Event.logError "something went horribly wrong while unregistering a java environment"] }

end JavaEnvironmentFactory

/-- One call of a thread-table member function, with the calling thread. -/
inductive TableOp where
  /-- `createEnvironment()` on thread `t`; `attached` is what an attach would yield. -/
  | create (t : ThreadId) (attached : JNIEnvPtr)
  /-- `registerEnvironment()` on thread `t`. -/
  | register (t : ThreadId)
  /-- `unregisterEnvironment()` on thread `t`. -/
  | unregister (t : ThreadId)
  deriving DecidableEq, Repr

namespace TableOp

/-- Perform one call. -/
def step (f : JavaEnvironmentFactory) : TableOp → Outcome
  | create t attached => (f.createEnvironment t attached).1
  | register t => f.registerEnvironment t
  | unregister t => f.unregisterEnvironment t

/-- Perform a sequence of calls, left to right, concatenating the actions. -/
def run (f : JavaEnvironmentFactory) : List TableOp → Outcome
  | [] => { factory := f, events := [] }
  | op :: rest =>
    { factory := (run (step f op).factory rest).factory,
      events := (step f op).events ++ (run (step f op).factory rest).events }

/-- The call `op` respects the calling discipline the factory relies on:
`unregisterEnvironment()` is called on a thread only while that thread is
untracked or has a user count of at least one (each unregister answers an
earlier register), and `registerEnvironment()` is called on a thread only
while that thread is untracked or has a user count below `INT_MAX` (the
count does not overflow).  `createEnvironment()` is unrestricted. -/
def admissible (f : JavaEnvironmentFactory) : TableOp → Bool
  | unregister t =>
    match f.m_threadIdToEnvAndUserCount t with
    | some it => decide (1 ≤ it.2)
    | none => true
  | register t =>
    match f.m_threadIdToEnvAndUserCount t with
    | some it => decide (it.2 < INT_MAX)
    | none => true
  | create _ _ => true

/-- Every call of the sequence is admissible in the state it is made in. -/
def matched (f : JavaEnvironmentFactory) : List TableOp → Bool
  | [] => true
  | op :: rest => admissible f op && matched (step f op).factory rest

/-- Every stored user count is non-negative and at most `INT_MAX`. -/
def countsNonneg (f : JavaEnvironmentFactory) : Prop :=
  ∀ t e c, f.m_threadIdToEnvAndUserCount t = some (e, c) → 0 ≤ c ∧ c ≤ INT_MAX

end TableOp

/-! ## The process-wide singleton -/

/-- `JNI_OK` of `jni.h` (JNI specification; the header is not part of the repository). -/
def JNI_OK : Int := 0

/-- `JNI_EVERSION` of `jni.h`. -/
def JNI_EVERSION : Int := -3

/-- `JNI_ENOMEM` of `jni.h`. -/
def JNI_ENOMEM : Int := -4

/-- `JNI_EEXIST` of `jni.h`. -/
def JNI_EEXIST : Int := -5

/-- `JNI_EINVAL` of `jni.h`. -/
def JNI_EINVAL : Int := -6

/-- `JNI_VERSION_1_6` of `jni.h` (`0x00010006`). -/
def JNI_VERSION_1_6 : Int := 65542

/-- `std::to_string(int)`: the decimal rendering, with a leading `-` for
negative values. -/
def to_string (n : Int) : String := toString n

/-- The conditional-compilation configuration: which of the two platform
blocks of `createInstance` the preprocessor keeps. -/
structure Platform where
  /-- `_WIN32` is defined. -/
  win32 : Bool
  /-- `__APPLE__` is defined. -/
  apple : Bool
  deriving DecidableEq, Repr

/-- The collaborators `createInstance` consults during one call. -/
structure World where
  platform : Platform
  /-- `ApplicationSettings::getInstance()->getJavaPath()`. -/
  getJavaPath : String
  /-- `ApplicationSettings::getInstance()->getJavaMaximumMemory()`. -/
  getJavaMaximumMemory : Int
  /-- `FileSystem::exists`. -/
  fileExists : String → Bool
  /-- `dlopen(path, RTLD_NOW)`: `true` when the returned handle is not null. -/
  dlopen : String → Bool
  /-- `JNI_CreateJavaVM`: the returned status code and the `JavaVM*` it stores. -/
  JNI_CreateJavaVM : JavaVMInitArgs → Int × JavaVMPtr

/-- The mutable process state `createInstance` works on: the two static
members and the process environment variable `path`. -/
structure Process where
  /-- `JavaEnvironmentFactory::s_instance`; `none` is the null `shared_ptr`. -/
  s_instance : Option JavaEnvironmentFactory
  /-- `JavaEnvironmentFactory::s_classPath`. -/
  s_classPath : String
  /-- Content of the environment variable `path` (`getenv("path")`). -/
  env_path : String

/-- State at process start: both statics are default-initialised. -/
def Process.initial (env_path : String) : Process :=
  { s_instance := none, s_classPath := "", env_path := env_path }

/-- What a call of `createInstance` returns in the model. -/
structure Result where
  process : Process
  events : List Event

/-- Local state of the locator part of `createInstance` (lines 34-72). -/
structure Locator where
  javaFound : Bool
  env_path : String
  events : List Event

namespace JavaEnvironmentFactory

/-- The `_WIN32` block of `createInstance` (lines 36-45). -/
def locateWin32 (w : World) (l : Locator) : Locator :=
  let oldPathContent := l.env_path
  let javapath := w.getJavaPath ++ "/client/"
  { javaFound := w.fileExists (javapath ++ "jvm.dll"),
    env_path := oldPathContent ++ ";" ++ javapath,
    events := l.events ++
      [Event.putenv ("path=" ++ oldPathContent ++ ";" ++ javapath),
       Event.fileExists (javapath ++ "jvm.dll")] }

/-- First probe of the `__APPLE__` block (lines 52-55); the Boolean is
`handle != nullptr`. -/
def appleProbe1 (w : World) (javapath : String) : Bool × List Event :=
  if javapath.length ≠ 0 then
    (w.dlopen (javapath ++ "/jre/lib/server/libjvm.dylib"),
     [Event.dlopen (javapath ++ "/jre/lib/server/libjvm.dylib")])
  else (false, [])

/-- Second probe of the `__APPLE__` block (lines 57-60). -/
def appleProbe2 (w : World) (javapath : String) (h : Bool × List Event) :
    Bool × List Event :=
  if !h.1 && javapath.length ≠ 0 then
    (w.dlopen (javapath ++ "/libjvm.dylib"), h.2 ++ [Event.dlopen (javapath ++ "/libjvm.dylib")])
  else h

/-- Third probe of the `__APPLE__` block (lines 62-65). -/
def appleProbe3 (w : World) (h : Bool × List Event) : Bool × List Event :=
  if !h.1 then (w.dlopen "libjvm.dylib", h.2 ++ [Event.dlopen "libjvm.dylib"]) else h

/-- The `__APPLE__` block of `createInstance` (lines 47-72). -/
def locateApple (w : World) (l : Locator) : Locator :=
  let javapath := w.getJavaPath
  let handle := appleProbe3 w (appleProbe2 w javapath (appleProbe1 w javapath))
  { javaFound := if handle.1 then true else l.javaFound,
    env_path := l.env_path,
    events := l.events ++ handle.2 }

/-- Lines 34-72 of `createInstance`: `javaFound` starts `false` and is assigned
only inside the platform blocks that are compiled in. -/
def locate (w : World) (env_path : String) : Locator :=
  let l0 : Locator := { javaFound := false, env_path := env_path, events := [] }
  let l1 := if w.platform.win32 then locateWin32 w l0 else l0
  if w.platform.apple then locateApple w l1 else l1

/-- The launch configuration built at lines 87-97. -/
def vmArgs (w : World) (classPath : String) : JavaVMInitArgs :=
  { version := JNI_VERSION_1_6,
    nOptions := 3,
    options :=
      ["-Djava.class.path=" ++ classPath,
       "-Xms1m",
       "-Xmx" ++ to_string w.getJavaMaximumMemory ++ "m"],
    ignoreUnrecognized := false }

/-- The `errorMessage` selected at lines 105-125 for a status code `rc`. -/
def launchErrorMessage (rc : Int) : String :=
  if rc = JNI_EVERSION then "JVM is oudated and doesn't meet requirements"
  else if rc = JNI_ENOMEM then "not enough memory for JVM"
  else if rc = JNI_EINVAL then "invalid argument for launching JVM"
  else if rc = JNI_EEXIST then "the process can only launch one JVM an not more"
  else "could not create the JVM instance (error code " ++ to_string rc ++ ")"

/-- Lines 82-135 of `createInstance`: store the class path, launch the JVM and
handle the status code.  `l` is the locator outcome, `caller` the thread
executing the call. -/
def launch (w : World) (caller : ThreadId) (classPath : String) (p : Process)
    (l : Locator) : Result :=
  let vm_args := vmArgs w classPath
  let rc := (w.JNI_CreateJavaVM vm_args).1
  let jvm := (w.JNI_CreateJavaVM vm_args).2
  if rc ≠ JNI_OK then
    { process := { s_instance := p.s_instance, s_classPath := classPath, env_path := l.env_path },
      events := l.events ++
        [Event.createJavaVM vm_args,
         Event.logError (launchErrorMessage rc),
         Event.messageStatus
           ("Error while creating Java environment: " ++ launchErrorMessage rc) true false] }
  else
    { process :=
        { s_instance := some (construct jvm), s_classPath := classPath, env_path := l.env_path },
      events := l.events ++
        [Event.createJavaVM vm_args, Event.detachCurrentThread jvm caller] }

/-- `JavaEnvironmentFactory::createInstance(std::string classPath)` (lines
17-135), executed on thread `caller`. -/
def createInstance (w : World) (caller : ThreadId) (classPath : String) (p : Process) :
    Result :=
  match p.s_instance with
  | some _ =>
    if classPath = p.s_classPath then { process := p, events := [] }
    else { process := p, events := [Event.logError "java classpath cannot be changed!"] }
  | none =>
    let l := locate w p.env_path
    if !l.javaFound then
      { process := { p with env_path := l.env_path },
        events := l.events ++
          [Event.logError "Unable to locate Java on this machine.",
           Event.messageStatus "Unable to locate Java on this machine." true false] }
    else launch w caller classPath p l

/-- `JavaEnvironmentFactory::getInstance()` (lines 137-140). -/
def getInstance (p : Process) : Option JavaEnvironmentFactory × Process :=
  (p.s_instance, p)

end JavaEnvironmentFactory

/-- One call of `createInstance`: the collaborators it meets, the calling
thread and the argument. -/
structure Call where
  world : World
  caller : ThreadId
  classPath : String

namespace Call

/-- Perform a sequence of `createInstance` calls, left to right. -/
def runCalls (p : Process) : List Call → Result
  | [] => { process := p, events := [] }
  | c :: rest =>
    { process :=
        (runCalls (JavaEnvironmentFactory.createInstance c.world c.caller c.classPath p).process
          rest).process,
      events :=
        (JavaEnvironmentFactory.createInstance c.world c.caller c.classPath p).events ++
        (runCalls (JavaEnvironmentFactory.createInstance c.world c.caller c.classPath p).process
          rest).events }

/-- Number of calls in a sequence that publish the singleton: `s_instance`
is null before the call and set after it. -/
def creations (p : Process) : List Call → Nat
  | [] => 0
  | c :: rest =>
    (if p.s_instance.isNone ∧
        (JavaEnvironmentFactory.createInstance c.world c.caller c.classPath p).process.s_instance.isSome
      then 1 else 0) +
    creations (JavaEnvironmentFactory.createInstance c.world c.caller c.classPath p).process rest

end Call

/-! ## Concrete collaborators used to exercise the model -/

/-- A machine on which every probe succeeds and the JVM launches (`JNI_OK`,
`JavaVM*` value 1), with the given conditional-compilation configuration. -/
def World.healthy (platform : Platform) : World :=
  { platform := platform,
    getJavaPath := "/opt/java",
    getJavaMaximumMemory := 512,
    fileExists := fun _ => true,
    dlopen := fun _ => true,
    JNI_CreateJavaVM := fun _ => (JNI_OK, 1) }

/-- A macOS build on a machine where no probe succeeds. -/
def World.withoutJava : World :=
  { platform := { win32 := false, apple := true },
    getJavaPath := "/opt/java",
    getJavaMaximumMemory := 512,
    fileExists := fun _ => false,
    dlopen := fun _ => false,
    JNI_CreateJavaVM := fun _ => (JNI_OK, 1) }

/-- A macOS build on a machine where the library loads but `JNI_CreateJavaVM`
returns the status code `rc`. -/
def World.failingLaunch (rc : Int) : World :=
  { platform := { win32 := false, apple := true },
    getJavaPath := "/opt/java",
    getJavaMaximumMemory := 512,
    fileExists := fun _ => true,
    dlopen := fun _ => true,
    JNI_CreateJavaVM := fun _ => (rc, 0) }

/-- The macOS configuration. -/
def Platform.macOS : Platform := { win32 := false, apple := true }

/-- A configuration in which neither platform block is compiled in. -/
def Platform.other : Platform := { win32 := false, apple := false }

/-- A macOS build on a machine with no configured install directory
(`getJavaPath()` is empty), where `dlopen` answers by `loads`. -/
def World.noInstallDir (loads : String → Bool) : World :=
  { platform := { win32 := false, apple := true },
    getJavaPath := "",
    getJavaMaximumMemory := 512,
    fileExists := fun _ => false,
    dlopen := loads,
    JNI_CreateJavaVM := fun _ => (JNI_OK, 1) }

/-! ## Observers used to state the claims -/

/-- Number of `AttachCurrentThread` calls executed on thread `t` in a trace. -/
def attachCount (t : ThreadId) : List Event → Nat
  | [] => 0
  | Event.attachCurrentThread _ u :: rest => (if u = t then 1 else 0) + attachCount t rest
  | _ :: rest => attachCount t rest

/-- Number of `DetachCurrentThread` calls executed on thread `t` in a trace. -/
def detachCount (t : ThreadId) : List Event → Nat
  | [] => 0
  | Event.detachCurrentThread _ u :: rest => (if u = t then 1 else 0) + detachCount t rest
  | _ :: rest => detachCount t rest

namespace TableOp

/-- Thread `T` keeps its entry throughout the sequence: after every call of the
sequence `T` is still in the table (no `unregisterEnvironment()` removes it). -/
def tracked (f : JavaEnvironmentFactory) (T : ThreadId) : List TableOp → Bool
  | [] => true
  | op :: rest =>
    ((step f op).factory.m_threadIdToEnvAndUserCount T).isSome &&
      tracked (step f op).factory T rest

/-- The assumption on the runtime that every `AttachCurrentThread` the
sequence performs (a `createEnvironment()` on an absent thread) yields a
`JNIEnv*` that is not stored in the table at that moment. -/
def attachesFresh (f : JavaEnvironmentFactory) : List TableOp → Prop
  | [] => True
  | op :: rest =>
    (match op with
      | create t attached =>
        f.m_threadIdToEnvAndUserCount t = none →
          ∀ u e c, f.m_threadIdToEnvAndUserCount u = some (e, c) → e ≠ attached
      | _ => True) ∧ attachesFresh (step f op).factory rest

/-- No two distinct thread keys hold the same context pointer. -/
def pointersDistinct (f : JavaEnvironmentFactory) : Prop :=
  ∀ u v e c d, f.m_threadIdToEnvAndUserCount u = some (e, c) →
    f.m_threadIdToEnvAndUserCount v = some (e, d) → u = v

end TableOp

/-- The candidate library paths of the dlopen locator in the priority order
the specification gives for a configured install directory `d`: the bundled
JRE path under `d`, the flat path under `d`, the bare library name. -/
def appleCandidates (d : String) : List String :=
  [d ++ "/jre/lib/server/libjvm.dylib", d ++ "/libjvm.dylib", "libjvm.dylib"]

/-- Probing a list of candidates in order, as the specification words it: each
candidate is opened in turn, the probing stops at the first one that loads;
the result is whether one loaded, and the probes made. -/
def probeInOrder (loads : String → Bool) : List String → Bool × List Event
  | [] => (false, [])
  | c :: rest =>
    if loads c then (true, [Event.dlopen c])
    else ((probeInOrder loads rest).1, Event.dlopen c :: (probeInOrder loads rest).2)

/-- The number denoted by a list of decimal digit characters, most significant
digit first (the character code of `0` is 48). -/
def decimalValue (digits : List Char) : Nat :=
  digits.foldl (fun acc ch => 10 * acc + (ch.toNat - 48)) 0

/-! ## Overlapping `createInstance` calls -/

/-- Number of `JNI_CreateJavaVM` calls in a trace. -/
def launchCount : List Event → Nat
  | [] => 0
  | Event.createJavaVM _ :: rest => 1 + launchCount rest
  | _ :: rest => launchCount rest

/-- Lines 34-135 of `createInstance`: what a call does once its test of
`s_instance` at line 19 has found no instance (the locator, then either the
`Unable to locate Java` reports or the launch). -/
def JavaEnvironmentFactory.afterNullCheck (w : World) (caller : ThreadId)
    (classPath : String) (p : Process) : Result :=
  let l := JavaEnvironmentFactory.locate w p.env_path
  if !l.javaFound then
    { process := { p with env_path := l.env_path },
      events := l.events ++
        [Event.logError "Unable to locate Java on this machine.",
         Event.messageStatus "Unable to locate Java on this machine." true false] }
  else JavaEnvironmentFactory.launch w caller classPath p l

/-- How far a `createInstance` call has got: not yet at the test of
`s_instance` (line 19), past that test having found no instance, or returned. -/
inductive Phase where
  | entry
  | pastNullCheck
  | returned
  deriving DecidableEq, Repr

/-- A `createInstance` call in progress on some thread. -/
structure Invocation where
  world : World
  caller : ThreadId
  classPath : String
  phase : Phase

/-- Several `createInstance` calls in progress on one process state.  The code
takes no lock and has no once-guard in `createInstance`, so the calls
interleave; the interleaving is modelled at the one read of `s_instance`: a
call executes line 19 (with the rest of that if-block when it finds an
instance) as one step and lines 34-135 as a second step.  Taking these two
parts as atomic leaves out further interleavings, it adds none. -/
structure Threads where
  process : Process
  invocations : List Invocation
  events : List Event

namespace Threads

/-- The state in which the given calls have all been started and none has
reached line 19 yet. -/
def start (p : Process) (calls : List Call) : Threads :=
  { process := p,
    invocations := calls.map fun c =>
      { world := c.world, caller := c.caller, classPath := c.classPath, phase := Phase.entry },
    events := [] }

/-- The call with index `i` executes its next step. -/
def advance (s : Threads) (i : Nat) : Threads :=
  match s.invocations.get? i with
  | none => s
  | some inv =>
    match inv.phase with
    | Phase.entry =>
      match s.process.s_instance with
      | some _ =>
        { process :=
            (JavaEnvironmentFactory.createInstance inv.world inv.caller inv.classPath
              s.process).process,
          invocations := s.invocations.set i { inv with phase := Phase.returned },
          events := s.events ++
            (JavaEnvironmentFactory.createInstance inv.world inv.caller inv.classPath
              s.process).events }
      | none =>
        { s with invocations := s.invocations.set i { inv with phase := Phase.pastNullCheck } }
    | Phase.pastNullCheck =>
      { process :=
          (JavaEnvironmentFactory.afterNullCheck inv.world inv.caller inv.classPath
            s.process).process,
        invocations := s.invocations.set i { inv with phase := Phase.returned },
        events := s.events ++
          (JavaEnvironmentFactory.afterNullCheck inv.world inv.caller inv.classPath
            s.process).events }
    | Phase.returned => s

/-- The calls take steps in the order the schedule lists their indices. -/
def runSchedule (s : Threads) : List Nat → Threads
  | [] => s
  | i :: rest => runSchedule (s.advance i) rest

end Threads

/-! ## Thread table: auxiliary facts -/

namespace TableOp

theorem runOps_cons (f : JavaEnvironmentFactory) (op : TableOp) (rest : List TableOp) :
    run f (op :: rest) =
      { factory := (run (step f op).factory rest).factory,
        events := (step f op).events ++ (run (step f op).factory rest).events } := rfl

theorem runOps_singleton (f : JavaEnvironmentFactory) (op : TableOp) :
    run f [op] = { factory := (step f op).factory, events := (step f op).events } := by
  simp [run]

theorem runOps_append (f : JavaEnvironmentFactory) (a b : List TableOp) :
    run f (a ++ b) =
      { factory := (run (run f a).factory b).factory,
        events := (run f a).events ++ (run (run f a).factory b).events } := by
  induction a generalizing f with
  | nil => simp [run]
  | cons op rest ih => simp [run, ih, List.append_assoc]

theorem wrapInt32_idem (x : Int) : wrapInt32 (wrapInt32 x) = wrapInt32 x := by
  unfold wrapInt32
  omega

theorem wrapInt32_add_left (x y : Int) : wrapInt32 (wrapInt32 x + y) = wrapInt32 (x + y) := by
  unfold wrapInt32
  omega

theorem wrapInt32_sub_left (x y : Int) : wrapInt32 (wrapInt32 x - y) = wrapInt32 (x - y) := by
  unfold wrapInt32
  omega

theorem wrapInt32_of_range (x : Int) (h1 : INT_MIN ≤ x) (h2 : x ≤ INT_MAX) :
    wrapInt32 x = x := by
  unfold INT_MIN at h1
  unfold INT_MAX at h2
  unfold wrapInt32
  omega

theorem wrapInt32_range (x : Int) : INT_MIN ≤ wrapInt32 x ∧ wrapInt32 x ≤ INT_MAX := by
  unfold INT_MIN INT_MAX wrapInt32
  omega

theorem step_register_present (f : JavaEnvironmentFactory) (T : ThreadId) (e : JNIEnvPtr)
    (c : Int) (h : f.m_threadIdToEnvAndUserCount T = some (e, c)) :
    (step f (register T)).factory.m_threadIdToEnvAndUserCount T
        = some (e, wrapInt32 (c + 1)) ∧
      (step f (register T)).events = [] ∧ (step f (register T)).factory.m_jvm = f.m_jvm := by
  simp [step, JavaEnvironmentFactory.registerEnvironment, h, ThreadTable.set]

theorem step_unregister_keep (f : JavaEnvironmentFactory) (T : ThreadId) (e : JNIEnvPtr)
    (c : Int) (h : f.m_threadIdToEnvAndUserCount T = some (e, c))
    (hc : wrapInt32 (c - 1) ≠ 0) :
    (step f (unregister T)).factory.m_threadIdToEnvAndUserCount T
        = some (e, wrapInt32 (c - 1)) ∧
      (step f (unregister T)).events = [] ∧ (step f (unregister T)).factory.m_jvm = f.m_jvm := by
  simp [step, JavaEnvironmentFactory.unregisterEnvironment, h, hc, ThreadTable.set]

theorem step_unregister_last (f : JavaEnvironmentFactory) (T : ThreadId) (e : JNIEnvPtr)
    (c : Int) (h : f.m_threadIdToEnvAndUserCount T = some (e, c))
    (hc : wrapInt32 (c - 1) = 0) :
    (step f (unregister T)).factory.m_threadIdToEnvAndUserCount T = none ∧
      (step f (unregister T)).events = [Event.detachCurrentThread f.m_jvm T] ∧
      (step f (unregister T)).factory.m_jvm = f.m_jvm := by
  simp [step, JavaEnvironmentFactory.unregisterEnvironment, h, hc, ThreadTable.erase]

theorem run_registers (T : ThreadId) (e : JNIEnvPtr) (n : Nat) :
    ∀ (f : JavaEnvironmentFactory) (c : Int), f.m_threadIdToEnvAndUserCount T = some (e, c) →
      wrapInt32 c = c →
      (run f (List.replicate n (register T))).factory.m_threadIdToEnvAndUserCount T
          = some (e, wrapInt32 (c + n)) ∧
        (run f (List.replicate n (register T))).events = [] ∧
        (run f (List.replicate n (register T))).factory.m_jvm = f.m_jvm := by
  induction n with
  | zero => intro f c h hc; simp [run, h, hc]
  | succ n ih =>
    intro f c h _
    obtain ⟨h1, h2, h3⟩ := step_register_present f T e c h
    obtain ⟨g1, g2, g3⟩ := ih _ _ h1 (wrapInt32_idem _)
    refine ⟨?_, ?_, ?_⟩
    · simp only [List.replicate_succ, run, g1, wrapInt32_add_left]
      push_cast
      congr 3
      ring
    · simp only [List.replicate_succ, run, g2, h2, List.append_nil]
    · simp only [List.replicate_succ, run, g3, h3]

theorem run_unregisters_partial (T : ThreadId) (e : JNIEnvPtr) (k : Nat) :
    ∀ (f : JavaEnvironmentFactory) (c : Int), f.m_threadIdToEnvAndUserCount T = some (e, c) →
      wrapInt32 c = c →
      (∀ j : Nat, 1 ≤ j → j ≤ k → wrapInt32 (c - j) ≠ 0) →
      (run f (List.replicate k (unregister T))).factory.m_threadIdToEnvAndUserCount T
          = some (e, wrapInt32 (c - k)) ∧
        (run f (List.replicate k (unregister T))).events = [] ∧
        (run f (List.replicate k (unregister T))).factory.m_jvm = f.m_jvm := by
  induction k with
  | zero => intro f c h hc _; simp [run, h, hc]
  | succ k ih =>
    intro f c h _ hk
    have hc : wrapInt32 (c - 1) ≠ 0 := by
      have := hk 1 (le_refl 1) (by omega)
      simpa using this
    obtain ⟨h1, h2, h3⟩ := step_unregister_keep f T e c h hc
    obtain ⟨g1, g2, g3⟩ := ih _ _ h1 (wrapInt32_idem _) (by
      intro j hj1 hj2
      rw [wrapInt32_sub_left]
      have := hk (j + 1) (by omega) (by omega)
      have heq : c - 1 - (j : Int) = c - ((j + 1 : Nat) : Int) := by push_cast; ring
      rw [heq]
      exact this)
    refine ⟨?_, ?_, ?_⟩
    · simp only [List.replicate_succ, run, g1, wrapInt32_sub_left]
      push_cast
      congr 3
      ring
    · simp only [List.replicate_succ, run, g2, h2, List.append_nil]
    · simp only [List.replicate_succ, run, g3, h3]

theorem run_unregisters_full (T : ThreadId) (e : JNIEnvPtr) (k : Nat)
    (f : JavaEnvironmentFactory) (c : Int)
    (h : f.m_threadIdToEnvAndUserCount T = some (e, c)) (hc : wrapInt32 c = c)
    (hk : ∀ j : Nat, 1 ≤ j → j ≤ k → wrapInt32 (c - j) ≠ 0)
    (hlast : wrapInt32 (c - ((k + 1 : Nat) : Int)) = 0) :
    (run f (List.replicate (k + 1) (unregister T))).factory.m_threadIdToEnvAndUserCount T
        = none ∧
      (run f (List.replicate (k + 1) (unregister T))).events
        = [Event.detachCurrentThread f.m_jvm T] := by
  obtain ⟨g1, g2, g3⟩ := run_unregisters_partial T e k f c h hc hk
  have hz : wrapInt32 (wrapInt32 (c - k) - 1) = 0 := by
    rw [wrapInt32_sub_left]
    have heq : c - (k : Int) - 1 = c - ((k + 1 : Nat) : Int) := by push_cast; ring
    rw [heq]
    exact hlast
  obtain ⟨h1, h2, _⟩ := step_unregister_last _ T e _ g1 hz
  rw [List.replicate_succ', runOps_append]
  simp only [run, g2, h1, h2, g3, List.append_nil, List.nil_append, and_self]

theorem step_create_absent (f : JavaEnvironmentFactory) (T : ThreadId) (attached : JNIEnvPtr)
    (h : f.m_threadIdToEnvAndUserCount T = none) :
    (step f (create T attached)).factory.m_threadIdToEnvAndUserCount T = some (attached, 0) ∧
      (step f (create T attached)).events = [Event.attachCurrentThread f.m_jvm T] ∧
      (step f (create T attached)).factory.m_jvm = f.m_jvm := by
  simp [step, JavaEnvironmentFactory.createEnvironment, h, ThreadTable.insert, ThreadTable.set]

/-- State and trace after `createEnvironment()` on an untracked thread followed
by `N` `registerEnvironment()` calls: the count is `N` reduced to 32 bits. -/
theorem run_create_registers (f : JavaEnvironmentFactory) (T : ThreadId)
    (attached : JNIEnvPtr) (N : Nat) (hT : f.m_threadIdToEnvAndUserCount T = none) :
    (run f (create T attached ::
        List.replicate N (register T))).factory.m_threadIdToEnvAndUserCount T
      = some (attached, wrapInt32 N) ∧
    (run f (create T attached :: List.replicate N (register T))).events
      = [Event.attachCurrentThread f.m_jvm T] ∧
    (run f (create T attached :: List.replicate N (register T))).factory.m_jvm = f.m_jvm := by
  obtain ⟨c1, c2, c3⟩ := step_create_absent f T attached hT
  obtain ⟨r1, r2, r3⟩ := run_registers T attached N _ 0 c1 (by decide)
  rw [runOps_cons]
  simp only [r1, r2, r3, c2, c3, zero_add, List.append_nil, and_self]

/-- When the count after `N` registers has wrapped round to 1, a single
`unregisterEnvironment()` removes the entry and detaches. -/
theorem run_create_registers_unregister (f : JavaEnvironmentFactory) (T : ThreadId)
    (attached : JNIEnvPtr) (N : Nat) (hT : f.m_threadIdToEnvAndUserCount T = none)
    (hone : wrapInt32 (N : Int) = 1) :
    (run f ((create T attached :: List.replicate N (register T)) ++
        [unregister T])).factory.m_threadIdToEnvAndUserCount T = none ∧
    (run f ((create T attached :: List.replicate N (register T)) ++
        [unregister T])).events
      = [Event.attachCurrentThread f.m_jvm T, Event.detachCurrentThread f.m_jvm T] := by
  obtain ⟨b1, b2, b3⟩ := run_create_registers f T attached N hT
  rw [hone] at b1
  obtain ⟨u1, u2, _⟩ := step_unregister_last _ T attached 1 b1 (by decide)
  rw [runOps_append, runOps_singleton]
  exact ⟨u1, by simp only [b2, u2, b3, List.singleton_append]⟩

end TableOp

/-! ## Thread table: the claims -/

/-- C1, as stated, fails once the `int` count overflows.  After
`createEnvironment()` and `2^31` `registerEnvironment()` calls on thread 7,
with no unregister yet, the entry holds the count `-2^31`, not `2^31`.  And
after `2^32 + 1` registers the count is back at 1, so the first of the
unregisters already removes the entry and detaches the thread. -/
theorem C1_counterexample :
    (TableOp.run (JavaEnvironmentFactory.construct 1) (TableOp.create 7 40 ::
        List.replicate 2147483648
          (TableOp.register 7))).factory.m_threadIdToEnvAndUserCount 7
      = some (40, -2147483648) ∧
    (TableOp.run (JavaEnvironmentFactory.construct 1) ((TableOp.create 7 40 ::
        List.replicate 4294967297 (TableOp.register 7)) ++
          [TableOp.unregister 7])).factory.m_threadIdToEnvAndUserCount 7 = none ∧
    (TableOp.run (JavaEnvironmentFactory.construct 1) ((TableOp.create 7 40 ::
        List.replicate 4294967297 (TableOp.register 7)) ++
          [TableOp.unregister 7])).events
      = [Event.attachCurrentThread 1 7, Event.detachCurrentThread 1 7] :=
  ⟨by
    obtain ⟨a1, _, _⟩ := TableOp.run_create_registers (JavaEnvironmentFactory.construct 1) 7 40
      2147483648 rfl
    have hw : wrapInt32 ((2147483648 : Nat) : Int) = -2147483648 := by decide
    rw [hw] at a1
    exact a1,
   TableOp.run_create_registers_unregister (JavaEnvironmentFactory.construct 1) 7 40
    4294967297 rfl (by decide)⟩

/-- C1, amended: for every thread `T` and every `N` with `1 ≤ N ≤ 2^32`,
starting from a table in which `T` has no entry, `createEnvironment()` on
`T`, then `N` `registerEnvironment()` calls and then `k ≤ N`
`unregisterEnvironment()` calls on `T`: if `k < N` the entry of `T` is still
present and no detach has happened (the only action so far is the attach), and
its count is `N - k` reduced to 32 bits, which is `N - k` itself whenever
`N - k ≤ INT_MAX`; if `k = N` the table has no entry for `T` and
`DetachCurrentThread` has been invoked exactly once, as the last action (so by
the `N`-th unregister, none of the earlier ones having detached). -/
theorem C1_register_unregister_balance (f : JavaEnvironmentFactory) (T : ThreadId)
    (attached : JNIEnvPtr) (N k : Nat)
    (hT : f.m_threadIdToEnvAndUserCount T = none) (hN : 1 ≤ N) (hmax : N ≤ 4294967296)
    (hk : k ≤ N) :
    (k < N →
      (TableOp.run f (TableOp.create T attached ::
          (List.replicate N (TableOp.register T) ++
            List.replicate k (TableOp.unregister T)))).factory.m_threadIdToEnvAndUserCount T
        = some (attached, wrapInt32 ((N : Int) - k)) ∧
      (TableOp.run f (TableOp.create T attached ::
          (List.replicate N (TableOp.register T) ++
            List.replicate k (TableOp.unregister T)))).events
        = [Event.attachCurrentThread f.m_jvm T] ∧
      ((N : Int) - k ≤ INT_MAX →
        (TableOp.run f (TableOp.create T attached ::
          (List.replicate N (TableOp.register T) ++
            List.replicate k (TableOp.unregister T)))).factory.m_threadIdToEnvAndUserCount T
        = some (attached, (N : Int) - k))) ∧
    (k = N →
      (TableOp.run f (TableOp.create T attached ::
          (List.replicate N (TableOp.register T) ++
            List.replicate k (TableOp.unregister T)))).factory.m_threadIdToEnvAndUserCount T
        = none ∧
      (TableOp.run f (TableOp.create T attached ::
          (List.replicate N (TableOp.register T) ++
            List.replicate k (TableOp.unregister T)))).events
        = [Event.attachCurrentThread f.m_jvm T, Event.detachCurrentThread f.m_jvm T]) := by
  obtain ⟨r1, r2, r3⟩ := TableOp.run_create_registers f T attached N hT
  have happ : TableOp.create T attached ::
      (List.replicate N (TableOp.register T) ++ List.replicate k (TableOp.unregister T))
      = (TableOp.create T attached :: List.replicate N (TableOp.register T)) ++
        List.replicate k (TableOp.unregister T) := rfl
  rw [happ, TableOp.runOps_append]
  have hnz : ∀ j : Nat, 1 ≤ j → j < N → wrapInt32 (wrapInt32 (N : Int) - j) ≠ 0 := by
    intro j h1 h2
    rw [TableOp.wrapInt32_sub_left]
    unfold wrapInt32
    omega
  constructor
  · intro hlt
    obtain ⟨u1, u2, _⟩ := TableOp.run_unregisters_partial T attached k _ _ r1
      (TableOp.wrapInt32_idem _) (fun j h1 h2 => hnz j h1 (by omega))
    rw [TableOp.wrapInt32_sub_left] at u1
    refine ⟨u1, by simp only [r2, u2, List.append_nil], ?_⟩
    intro hle
    rw [u1, TableOp.wrapInt32_of_range _ (by unfold INT_MIN; omega) hle]
  · intro heq
    subst heq
    obtain ⟨m, rfl⟩ : ∃ m, k = m + 1 := ⟨k - 1, by omega⟩
    obtain ⟨u1, u2⟩ := TableOp.run_unregisters_full T attached m _ _ r1
      (TableOp.wrapInt32_idem _) (fun j h1 h2 => hnz j h1 (by omega)) (by
        rw [TableOp.wrapInt32_sub_left]
        unfold wrapInt32
        omega)
    simp only [u1, u2, r2, r3, List.singleton_append, and_self]

/-- Witness for C1: thread 7, three registers, then one and three unregisters. -/
theorem C1_register_unregister_balance_witness :
    (TableOp.run (JavaEnvironmentFactory.construct 1) (TableOp.create 7 40 ::
        (List.replicate 3 (TableOp.register 7) ++
          List.replicate 1 (TableOp.unregister 7)))).factory.m_threadIdToEnvAndUserCount 7
      = some (40, ((3 : Nat) : Int) - (1 : Nat)) ∧
    (TableOp.run (JavaEnvironmentFactory.construct 1) (TableOp.create 7 40 ::
        (List.replicate 3 (TableOp.register 7) ++
          List.replicate 3 (TableOp.unregister 7)))).events
      = [Event.attachCurrentThread 1 7, Event.detachCurrentThread 1 7] :=
  ⟨((C1_register_unregister_balance (JavaEnvironmentFactory.construct 1) 7 40 3 1 rfl
        (by decide) (by decide) (by decide)).1 (by decide)).2.2 (by decide),
   ((C1_register_unregister_balance (JavaEnvironmentFactory.construct 1) 7 40 3 3 rfl
        (by decide) (by decide) (by decide)).2 rfl).2⟩

/-- C2: for every table state and every thread `T` without an entry,
`registerEnvironment()` and `unregisterEnvironment()` on `T` each return with
the factory (table included) exactly unchanged, perform exactly one action,
the `LOG_ERROR` entry, and hence no `DetachCurrentThread`. -/
theorem C2_untracked_thread_is_reported (f : JavaEnvironmentFactory) (T : ThreadId)
    (hT : f.m_threadIdToEnvAndUserCount T = none) :
    ((f.registerEnvironment T).factory = f ∧
      (f.registerEnvironment T).events =
        [Event.logError "something went horribly wrong while registering a java environment"] ∧
      ∀ jvm t, Event.detachCurrentThread jvm t ∉ (f.registerEnvironment T).events) ∧
    ((f.unregisterEnvironment T).factory = f ∧
      (f.unregisterEnvironment T).events =
        [Event.logError "something went horribly wrong while unregistering a java environment"] ∧
      ∀ jvm t, Event.detachCurrentThread jvm t ∉ (f.unregisterEnvironment T).events) := by
  simp [JavaEnvironmentFactory.registerEnvironment, JavaEnvironmentFactory.unregisterEnvironment,
    hT]

/-- Witness for C2: thread 9 is untracked in a table that tracks thread 7. -/
theorem C2_untracked_thread_is_reported_witness :
    ((TableOp.step (JavaEnvironmentFactory.construct 1) (TableOp.create 7 40)).factory.unregisterEnvironment
        9).events =
      [Event.logError "something went horribly wrong while unregistering a java environment"] :=
  (C2_untracked_thread_is_reported
    (TableOp.step (JavaEnvironmentFactory.construct 1) (TableOp.create 7 40)).factory 9
    (by decide)).2.2.1

namespace TableOp

theorem matched_append (f : JavaEnvironmentFactory) (a b : List TableOp) :
    matched f (a ++ b) = true ↔ matched f a = true ∧ matched (run f a).factory b = true := by
  induction a generalizing f with
  | nil => simp [matched, run]
  | cons op rest ih => simp [matched, run, ih, and_assoc]

/-- Where the entry of `u` after a call comes from: it is the entry `u` had
before and the call was no register or unregister of `u`; or the call is the
`createEnvironment()` on the absent `u` that inserted it with count 0; or the
call is a register of `u` and the count was incremented; or the call is an
unregister of `u` and the count was decremented to a value other than 0. -/
theorem step_entry_cases (f : JavaEnvironmentFactory) (op : TableOp) (u : ThreadId)
    (e : JNIEnvPtr) (c : Int)
    (h : (step f op).factory.m_threadIdToEnvAndUserCount u = some (e, c)) :
    (f.m_threadIdToEnvAndUserCount u = some (e, c) ∧ op ≠ register u ∧ op ≠ unregister u) ∨
    (f.m_threadIdToEnvAndUserCount u = none ∧ op = create u e ∧ c = 0) ∨
    (op = register u ∧ ∃ c0, f.m_threadIdToEnvAndUserCount u = some (e, c0) ∧
      c = wrapInt32 (c0 + 1)) ∨
    (op = unregister u ∧ ∃ c0, f.m_threadIdToEnvAndUserCount u = some (e, c0) ∧
      c = wrapInt32 (c0 - 1) ∧ c ≠ 0) := by
  cases op with
  | create t a =>
    simp only [step, JavaEnvironmentFactory.createEnvironment] at h
    cases ht : f.m_threadIdToEnvAndUserCount t with
    | some it =>
      simp only [ht] at h
      exact Or.inl ⟨h, by simp, by simp⟩
    | none =>
      simp only [ht, ThreadTable.insert, ThreadTable.set] at h
      by_cases hut : u = t
      · subst hut
        simp at h
        exact Or.inr (Or.inl ⟨ht, by rw [h.1], h.2.symm⟩)
      · simp only [hut, if_false] at h
        exact Or.inl ⟨h, by simp, by simp⟩
  | register t =>
    simp only [step, JavaEnvironmentFactory.registerEnvironment] at h
    by_cases hut : u = t
    · subst hut
      cases ht : f.m_threadIdToEnvAndUserCount u with
      | some it =>
        simp [ht, ThreadTable.set] at h
        exact Or.inr (Or.inr (Or.inl ⟨rfl, it.2, by rw [← h.1], h.2.symm⟩))
      | none => simp [ht] at h
    · have hne : register t ≠ register u := by
        intro heq; cases heq; exact hut rfl
      cases ht : f.m_threadIdToEnvAndUserCount t with
      | some it =>
        simp only [ht, ThreadTable.set, hut, if_false] at h
        exact Or.inl ⟨h, hne, by simp⟩
      | none =>
        simp only [ht] at h
        exact Or.inl ⟨h, hne, by simp⟩
  | unregister t =>
    simp only [step, JavaEnvironmentFactory.unregisterEnvironment] at h
    by_cases hut : u = t
    · subst hut
      cases ht : f.m_threadIdToEnvAndUserCount u with
      | some it =>
        simp only [ht] at h
        by_cases h0 : wrapInt32 (it.2 - 1) = 0
        · simp [h0, ThreadTable.erase] at h
        · simp [h0, ThreadTable.set] at h
          refine Or.inr (Or.inr (Or.inr ⟨rfl, it.2, by rw [← h.1], h.2.symm, ?_⟩))
          rw [← h.2]
          exact h0
      | none => simp [ht] at h
    · have hne : unregister t ≠ unregister u := by
        intro heq; cases heq; exact hut rfl
      cases ht : f.m_threadIdToEnvAndUserCount t with
      | some it =>
        simp only [ht] at h
        by_cases h0 : wrapInt32 (it.2 - 1) = 0
        · simp only [h0, if_true, ThreadTable.erase, hut, if_false] at h
          exact Or.inl ⟨h, by simp, hne⟩
        · simp only [h0, if_false, ThreadTable.set, hut] at h
          exact Or.inl ⟨h, by simp, hne⟩
      | none =>
        simp only [ht] at h
        exact Or.inl ⟨h, by simp, hne⟩

theorem countsNonneg_construct (jvm : JavaVMPtr) :
    countsNonneg (JavaEnvironmentFactory.construct jvm) := by
  intro t e c h
  simp [JavaEnvironmentFactory.construct, ThreadTable.empty] at h

theorem countsNonneg_step (f : JavaEnvironmentFactory) (op : TableOp)
    (hf : countsNonneg f) (hm : admissible f op = true) :
    countsNonneg (step f op).factory := by
  intro u e c hu
  rcases step_entry_cases f op u e c hu with ⟨h, _, _⟩ | ⟨_, _, hc⟩ | ⟨hop, c0, h, hc⟩ |
    ⟨hop, c0, h, hc, _⟩
  · exact hf u e c h
  · subst hc
    exact ⟨le_refl 0, by decide⟩
  · subst hop
    simp only [admissible, h, decide_eq_true_eq] at hm
    obtain ⟨h1, h2⟩ := hf u e c0 h
    rw [hc, wrapInt32_of_range _ (by unfold INT_MIN; omega) (by omega)]
    exact ⟨by omega, by omega⟩
  · subst hop
    simp only [admissible, h, decide_eq_true_eq] at hm
    obtain ⟨h1, h2⟩ := hf u e c0 h
    rw [hc, wrapInt32_of_range _ (by unfold INT_MIN; omega) (by omega)]
    exact ⟨by omega, by omega⟩

theorem countsNonneg_run (ops : List TableOp) :
    ∀ f : JavaEnvironmentFactory, countsNonneg f → matched f ops = true →
      countsNonneg (run f ops).factory := by
  induction ops with
  | nil => intro f hf _; simpa [run] using hf
  | cons op rest ih =>
    intro f hf hm
    simp only [matched, Bool.and_eq_true] at hm
    simpa [run] using ih _ (countsNonneg_step f op hf hm.1) hm.2

/-- One call, in a run that respects the calling discipline: afterwards an entry
has count at least 1, or it has count 0 and is either the entry this call, a
`createEnvironment()` on an absent thread, has just inserted, or an entry that
already had count 0 before the call; the call was then neither a register nor
an unregister of that thread. -/
theorem zero_count_after_call (jvm : JavaVMPtr) (ops : List TableOp)
    (op : TableOp)
    (hm : matched (JavaEnvironmentFactory.construct jvm) (ops ++ [op]) = true)
    (u : ThreadId) (e : JNIEnvPtr) (c : Int)
    (hu : (run (JavaEnvironmentFactory.construct jvm)
        (ops ++ [op])).factory.m_threadIdToEnvAndUserCount u = some (e, c)) :
    1 ≤ c ∨
      (c = 0 ∧ op ≠ register u ∧ op ≠ unregister u ∧
        ((run (JavaEnvironmentFactory.construct jvm)
            ops).factory.m_threadIdToEnvAndUserCount u = some (e, 0) ∨
          ((run (JavaEnvironmentFactory.construct jvm)
              ops).factory.m_threadIdToEnvAndUserCount u = none ∧
            op = create u e))) := by
  rw [matched_append] at hm
  obtain ⟨hm1, hm2⟩ := hm
  simp only [matched, Bool.and_true] at hm2
  have hg := countsNonneg_run ops _ (countsNonneg_construct jvm) hm1
  rw [runOps_append, runOps_singleton] at hu
  simp only at hu
  rcases step_entry_cases _ op u e c hu with ⟨h, hr, hun⟩ | ⟨hn, hop, hc⟩ | ⟨hop, c0, h, hc⟩ |
    ⟨hop, c0, h, hc, hne⟩
  · obtain ⟨h1, _⟩ := hg u e c h
    by_cases hc1 : 1 ≤ c
    · exact Or.inl hc1
    · have hc0 : c = 0 := by omega
      subst hc0
      exact Or.inr ⟨rfl, hr, hun, Or.inl h⟩
  · subst hc
    refine Or.inr ⟨rfl, by rw [hop]; simp, by rw [hop]; simp, Or.inr ⟨hn, hop⟩⟩
  · subst hop
    simp only [admissible, h, decide_eq_true_eq] at hm2
    obtain ⟨h1, h2⟩ := hg u e c0 h
    left
    rw [hc, wrapInt32_of_range _ (by unfold INT_MIN; omega) (by omega)]
    omega
  · subst hop
    simp only [admissible, h, decide_eq_true_eq] at hm2
    obtain ⟨h1, h2⟩ := hg u e c0 h
    left
    rw [hc, wrapInt32_of_range _ (by unfold INT_MIN; omega) (by omega)] at hne
    rw [hc, wrapInt32_of_range _ (by unfold INT_MIN; omega) (by omega)]
    omega

end TableOp

/-- C3, as stated, fails.  After `createEnvironment()` and `2^31`
`registerEnvironment()` calls on thread 7 the `int` count has overflowed: the
entry is present with count `-2^31`, below 1 (this does not depend on what the
handle's constructor does: one more increment gives `-2^31 + 1`).  Moreover
`createEnvironment()` itself inserts the entry with count 0 (line 165), and an
`unregisterEnvironment()` on that entry leaves it present with count -1. -/
theorem C3_counterexample :
    (TableOp.run (JavaEnvironmentFactory.construct 1) (TableOp.create 7 40 ::
        List.replicate 2147483648
          (TableOp.register 7))).factory.m_threadIdToEnvAndUserCount 7
      = some (40, -2147483648) ∧
    (TableOp.run (JavaEnvironmentFactory.construct 1)
        [TableOp.create 7 40]).factory.m_threadIdToEnvAndUserCount 7 = some (40, 0) ∧
    (TableOp.run (JavaEnvironmentFactory.construct 1)
        [TableOp.create 7 40, TableOp.unregister 7]).factory.m_threadIdToEnvAndUserCount 7
      = some (40, -1) :=
  ⟨by
    obtain ⟨a1, _, _⟩ := TableOp.run_create_registers (JavaEnvironmentFactory.construct 1) 7 40
      2147483648 rfl
    have hw : wrapInt32 ((2147483648 : Nat) : Int) = -2147483648 := by decide
    rw [hw] at a1
    exact a1,
   by decide, by decide⟩

/-- C3, amended: in every state reachable from the empty table by a sequence of
calls that respects the calling discipline (`matched`: no unregister below
count 1, no register at count `INT_MAX`), every entry has count at least 1,
except that an entry has count 0 from the `createEnvironment()` call that
inserted it until the first `registerEnvironment()` on its thread: a count-0
entry of thread `u` was inserted by a `createEnvironment()` call on `u`, made
while `u` was absent, and since that call neither `registerEnvironment()`
nor `unregisterEnvironment()` has been called on `u`.  In particular no
`registerEnvironment()` or `unregisterEnvironment()` call returns leaving the
calling thread's entry with count 0. -/
theorem C3_zero_count_only_before_first_register (jvm : JavaVMPtr) (ops : List TableOp)
    (hm : TableOp.matched (JavaEnvironmentFactory.construct jvm) ops = true)
    (u : ThreadId) (e : JNIEnvPtr) (c : Int)
    (hu : (TableOp.run (JavaEnvironmentFactory.construct jvm)
        ops).factory.m_threadIdToEnvAndUserCount u = some (e, c)) :
    1 ≤ c ∨
      (c = 0 ∧ ∃ pre post : List TableOp,
        ops = pre ++ TableOp.create u e :: post ∧
        (TableOp.run (JavaEnvironmentFactory.construct jvm)
          pre).factory.m_threadIdToEnvAndUserCount u = none ∧
        TableOp.register u ∉ post ∧ TableOp.unregister u ∉ post) := by
  induction ops using List.reverseRecOn generalizing e c with
  | nil => simp [TableOp.run, JavaEnvironmentFactory.construct, ThreadTable.empty] at hu
  | append_singleton l a ih =>
    rcases TableOp.zero_count_after_call jvm l a hm u e c hu with h1 | ⟨h0, hr, hun, hprev⟩
    · exact Or.inl h1
    · right
      refine ⟨h0, ?_⟩
      rcases hprev with hprev | ⟨hnone, hcreate⟩
      · have hml := ((TableOp.matched_append _ l [a]).1 hm).1
        rcases ih hml e 0 hprev with hbad | ⟨_, pre, post, hl, hpre, hreg, hunreg⟩
        · omega
        · refine ⟨pre, post ++ [a], ?_, hpre, ?_, ?_⟩
          · rw [hl]; simp
          · simp only [List.mem_append, List.mem_singleton, not_or]
            exact ⟨hreg, fun h => hr h.symm⟩
          · simp only [List.mem_append, List.mem_singleton, not_or]
            exact ⟨hunreg, fun h => hun h.symm⟩
      · exact ⟨l, [], by rw [hcreate], hnone, by simp, by simp⟩

/-- Witness for C3 (amended): after create, register, register on thread 7 the
count is 2; after create alone it is 0 and the create is the last call. -/
theorem C3_zero_count_only_before_first_register_witness :
    (1 ≤ (2 : Int) ∨
      ((2 : Int) = 0 ∧ ∃ pre post : List TableOp,
        [TableOp.create 7 40, TableOp.register 7, TableOp.register 7]
          = pre ++ TableOp.create 7 40 :: post ∧
        (TableOp.run (JavaEnvironmentFactory.construct 1)
          pre).factory.m_threadIdToEnvAndUserCount 7 = none ∧
        TableOp.register 7 ∉ post ∧ TableOp.unregister 7 ∉ post)) ∧
    (1 ≤ (0 : Int) ∨
      ((0 : Int) = 0 ∧ ∃ pre post : List TableOp,
        [TableOp.create 7 40] = pre ++ TableOp.create 7 40 :: post ∧
        (TableOp.run (JavaEnvironmentFactory.construct 1)
          pre).factory.m_threadIdToEnvAndUserCount 7 = none ∧
        TableOp.register 7 ∉ post ∧ TableOp.unregister 7 ∉ post)) :=
  ⟨C3_zero_count_only_before_first_register 1
      [TableOp.create 7 40, TableOp.register 7, TableOp.register 7] (by decide) 7 40 2
      (by decide),
   C3_zero_count_only_before_first_register 1 [TableOp.create 7 40] (by decide) 7 40 0
      (by decide)⟩

/-- C4, as stated, fails.  After `createEnvironment()` and `2^31`
`registerEnvironment()` calls on thread 7 the `int` count has overflowed to
`-2^31` (whatever the handle's constructor does: one more increment gives
`-2^31 + 1`, still negative).  Moreover `createEnvironment()` followed by
`unregisterEnvironment()` on thread 7, from the empty table, leaves thread 7
present with count -1. -/
theorem C4_counterexample :
    (TableOp.run (JavaEnvironmentFactory.construct 1) (TableOp.create 7 40 ::
        List.replicate 2147483648
          (TableOp.register 7))).factory.m_threadIdToEnvAndUserCount 7
      = some (40, -2147483648) ∧
    (TableOp.run (JavaEnvironmentFactory.construct 1)
        [TableOp.create 7 40, TableOp.unregister 7]).factory.m_threadIdToEnvAndUserCount 7
      = some (40, -1) ∧
    ¬ ∀ (ops : List TableOp) (t : ThreadId) (e : JNIEnvPtr) (c : Int),
      (TableOp.run (JavaEnvironmentFactory.construct 1)
        ops).factory.m_threadIdToEnvAndUserCount t = some (e, c) → 0 ≤ c :=
  ⟨by
    obtain ⟨a1, _, _⟩ := TableOp.run_create_registers (JavaEnvironmentFactory.construct 1) 7 40
      2147483648 rfl
    have hw : wrapInt32 ((2147483648 : Nat) : Int) = -2147483648 := by decide
    rw [hw] at a1
    exact a1,
   by decide,
   fun h => by
    have := h [TableOp.create 7 40, TableOp.unregister 7] 7 40 (-1) (by decide)
    omega⟩

/-- C4, amended: in every state reachable from the empty table by a sequence of
`createEnvironment()`, `registerEnvironment()` and `unregisterEnvironment()`
calls in which each `unregisterEnvironment()` is called on a thread that is
untracked or has count at least 1 and each `registerEnvironment()` is called on
a thread that is untracked or has count below `INT_MAX`, each thread is absent
from the table or present with a count that is at least 0 (and at most
`INT_MAX`). -/
theorem C4_count_nonneg_when_matched (jvm : JavaVMPtr) (ops : List TableOp)
    (hm : TableOp.matched (JavaEnvironmentFactory.construct jvm) ops = true) (t : ThreadId) :
    (TableOp.run (JavaEnvironmentFactory.construct jvm)
        ops).factory.m_threadIdToEnvAndUserCount t = none ∨
    ∃ e c, (TableOp.run (JavaEnvironmentFactory.construct jvm)
        ops).factory.m_threadIdToEnvAndUserCount t = some (e, c) ∧ 0 ≤ c ∧ c ≤ INT_MAX := by
  have hg := TableOp.countsNonneg_run ops _ (TableOp.countsNonneg_construct jvm) hm
  cases ht : (TableOp.run (JavaEnvironmentFactory.construct jvm)
      ops).factory.m_threadIdToEnvAndUserCount t with
  | none => exact Or.inl rfl
  | some it => exact Or.inr ⟨it.1, it.2, rfl, hg t it.1 it.2 ht⟩

/-- Witness for C4 (amended): create, register, unregister, create on thread 7. -/
theorem C4_count_nonneg_when_matched_witness :
    (TableOp.run (JavaEnvironmentFactory.construct 1)
        [TableOp.create 7 40, TableOp.register 7, TableOp.unregister 7,
          TableOp.create 7 41]).factory.m_threadIdToEnvAndUserCount 7 = none ∨
    ∃ e c, (TableOp.run (JavaEnvironmentFactory.construct 1)
        [TableOp.create 7 40, TableOp.register 7, TableOp.unregister 7,
          TableOp.create 7 41]).factory.m_threadIdToEnvAndUserCount 7 = some (e, c) ∧
        0 ≤ c ∧ c ≤ INT_MAX :=
  C4_count_nonneg_when_matched 1
    [TableOp.create 7 40, TableOp.register 7, TableOp.unregister 7, TableOp.create 7 41]
    (by decide) 7

/-! ## The singleton: auxiliary facts -/

namespace JavaEnvironmentFactory

theorem createInstance_process_of_some (w : World) (caller : ThreadId) (classPath : String)
    (p : Process) (h : p.s_instance.isSome = true) :
    (createInstance w caller classPath p).process = p := by
  cases hi : p.s_instance with
  | none => simp [hi] at h
  | some f =>
    unfold createInstance
    simp only [hi]
    split <;> rfl

theorem createInstance_events_same_path (w : World) (caller : ThreadId) (p : Process)
    (h : p.s_instance.isSome = true) :
    (createInstance w caller p.s_classPath p).events = [] := by
  cases hi : p.s_instance with
  | none => simp [hi] at h
  | some f => simp [createInstance, hi]

theorem createInstance_events_other_path (w : World) (caller : ThreadId) (classPath : String)
    (p : Process) (h : p.s_instance.isSome = true) (hne : classPath ≠ p.s_classPath) :
    (createInstance w caller classPath p).events =
      [Event.logError "java classpath cannot be changed!"] := by
  cases hi : p.s_instance with
  | none => simp [hi] at h
  | some f => simp [createInstance, hi, hne]

theorem createInstance_classPath_of_published (w : World) (caller : ThreadId)
    (classPath : String) (p : Process) (h : p.s_instance = none)
    (hpub : (createInstance w caller classPath p).process.s_instance.isSome = true) :
    (createInstance w caller classPath p).process.s_classPath = classPath := by
  unfold createInstance at hpub ⊢
  simp only [h] at hpub ⊢
  by_cases hf : (locate w p.env_path).javaFound = true
  · simp only [hf, Bool.not_true, Bool.false_eq_true, if_false] at hpub ⊢
    simp only [launch]
    split <;> rfl
  · simp [hf, h] at hpub

end JavaEnvironmentFactory

namespace Call

theorem runCalls_process_of_some (calls : List Call) :
    ∀ p : Process, p.s_instance.isSome = true → (runCalls p calls).process = p := by
  induction calls with
  | nil => intro p _; rfl
  | cons c rest ih =>
    intro p h
    have h1 := JavaEnvironmentFactory.createInstance_process_of_some c.world c.caller
      c.classPath p h
    simp only [runCalls, h1]
    exact ih p h

theorem creations_of_some (calls : List Call) :
    ∀ p : Process, p.s_instance.isSome = true → creations p calls = 0 := by
  induction calls with
  | nil => intro p _; rfl
  | cons c rest ih =>
    intro p h
    have h1 := JavaEnvironmentFactory.createInstance_process_of_some c.world c.caller
      c.classPath p h
    simp only [creations, h1, ih p h, add_zero]
    cases hi : p.s_instance with
    | none => simp [hi] at h
    | some f => simp

theorem creations_eq (calls : List Call) :
    ∀ p : Process, p.s_instance = none →
      creations p calls = if (runCalls p calls).process.s_instance.isSome then 1 else 0 := by
  induction calls with
  | nil => intro p h; simp [creations, runCalls, h]
  | cons c rest ih =>
    intro p h
    by_cases hq : (JavaEnvironmentFactory.createInstance c.world c.caller c.classPath
        p).process.s_instance.isSome = true
    · have h2 := runCalls_process_of_some rest _ hq
      have h3 := creations_of_some rest _ hq
      simp only [creations, runCalls, h2, h3, hq, h, Option.isNone_none, and_self, if_true]
    · have hq2 : (JavaEnvironmentFactory.createInstance c.world c.caller c.classPath
          p).process.s_instance = none := by
        simpa using hq
      have := ih _ hq2
      simp only [creations, runCalls, this, hq, and_false]
      simp

theorem runCalls_append (p : Process) (a b : List Call) :
    runCalls p (a ++ b) =
      { process := (runCalls (runCalls p a).process b).process,
        events := (runCalls p a).events ++ (runCalls (runCalls p a).process b).events } := by
  induction a generalizing p with
  | nil => simp [runCalls]
  | cons c rest ih => simp [runCalls, ih, List.append_assoc]

theorem runCalls_classPath_of_some (path : String) (calls : List Call)
    (hpath : ∀ c ∈ calls, c.classPath = path) :
    ∀ p : Process, p.s_instance = none → (runCalls p calls).process.s_instance.isSome = true →
      (runCalls p calls).process.s_classPath = path := by
  induction calls with
  | nil => intro p h hs; simp [runCalls, h] at hs
  | cons c rest ih =>
    intro p h hs
    have hc : c.classPath = path := hpath c (List.mem_cons_self _ _)
    by_cases hq : (JavaEnvironmentFactory.createInstance c.world c.caller c.classPath
        p).process.s_instance.isSome = true
    · have h2 := runCalls_process_of_some rest _ hq
      simp only [runCalls, h2]
      rw [JavaEnvironmentFactory.createInstance_classPath_of_published _ _ _ _ h hq, hc]
    · have hq2 : (JavaEnvironmentFactory.createInstance c.world c.caller c.classPath
          p).process.s_instance = none := by
        simpa using hq
      simp only [runCalls] at hs ⊢
      exact ih (fun d hd => hpath d (List.mem_cons_of_mem _ hd)) _ hq2 hs

end Call

namespace JavaEnvironmentFactory

theorem locate_events_no_launch (w : World) (env_path : String) (args : JavaVMInitArgs) :
    Event.createJavaVM args ∉ (locate w env_path).events := by
  simp only [locate, locateWin32, locateApple, appleProbe1, appleProbe2, appleProbe3]
  split_ifs <;> simp

theorem createInstance_success (w : World) (caller : ThreadId) (classPath : String)
    (p : Process) (h : p.s_instance = none) (hf : (locate w p.env_path).javaFound = true)
    (hrc : (w.JNI_CreateJavaVM (vmArgs w classPath)).1 = JNI_OK) :
    (createInstance w caller classPath p).process.s_instance =
      some (construct (w.JNI_CreateJavaVM (vmArgs w classPath)).2) := by
  simp [createInstance, h, hf, launch, hrc]

end JavaEnvironmentFactory

/-! ## The singleton: the claims -/

/-- C5, as stated, fails: two `createInstance("a.jar")` calls on a machine
where no candidate library loads publish the singleton not once but never;
there is no singleton after them. -/
theorem C5_counterexample :
    Call.creations (Process.initial "")
      [{ world := World.withoutJava, caller := 0, classPath := "a.jar" },
       { world := World.withoutJava, caller := 1, classPath := "a.jar" }] = 0 ∧
    (Call.runCalls (Process.initial "")
      [{ world := World.withoutJava, caller := 0, classPath := "a.jar" },
       { world := World.withoutJava, caller := 1, classPath := "a.jar" }]).process.s_instance
      = none :=
  ⟨by decide, rfl⟩

/-- C5, amended: for every path and every sequence of `createInstance(path)`
calls with that same path, started without a singleton and under arbitrary
behaviour of the collaborators: the singleton is published by at most one
call, by exactly one whenever a singleton exists at the end, and in particular
by exactly one when the first call finds the runtime and the launch returns
`JNI_OK`; every call made once the singleton exists performs no action at all
(no locator probe, no launch call, no error report) and leaves the whole
process state, the instance and the stored class path included, unchanged. -/
theorem C5_createInstance_idempotent (path : String) (calls : List Call) (p : Process)
    (hp : p.s_instance = none) (hpath : ∀ c ∈ calls, c.classPath = path) :
    Call.creations p calls ≤ 1 ∧
    (Call.creations p calls = 1 ↔ (Call.runCalls p calls).process.s_instance.isSome = true) ∧
    (∀ c rest, calls = c :: rest →
      (JavaEnvironmentFactory.locate c.world p.env_path).javaFound = true →
      (c.world.JNI_CreateJavaVM (JavaEnvironmentFactory.vmArgs c.world path)).1 = JNI_OK →
      Call.creations p calls = 1) ∧
    (∀ pre c post, calls = pre ++ c :: post →
      (Call.runCalls p pre).process.s_instance.isSome = true →
      (JavaEnvironmentFactory.createInstance c.world c.caller c.classPath
          (Call.runCalls p pre).process).process = (Call.runCalls p pre).process ∧
      (JavaEnvironmentFactory.createInstance c.world c.caller c.classPath
          (Call.runCalls p pre).process).events = []) := by
  have hc := Call.creations_eq calls p hp
  refine ⟨?_, ?_, ?_, ?_⟩
  · rw [hc]; split <;> simp
  · rw [hc]; split <;> simp_all
  · intro c rest hcalls hf hrc
    subst hcalls
    have hcp : c.classPath = path := hpath c (List.mem_cons_self _ _)
    have hs := JavaEnvironmentFactory.createInstance_success c.world c.caller c.classPath p hp hf
      (by rw [hcp]; exact hrc)
    have hsome : (JavaEnvironmentFactory.createInstance c.world c.caller c.classPath
        p).process.s_instance.isSome = true := by rw [hs]; rfl
    rw [hc]
    simp only [Call.runCalls, Call.runCalls_process_of_some rest _ hsome, hsome, if_true]
  · intro pre c post hcalls hsome
    subst hcalls
    have hcp : c.classPath = path := hpath c (by simp)
    have hq := Call.runCalls_classPath_of_some path pre
      (fun d hd => hpath d (by simp [hd])) p hp hsome
    refine ⟨JavaEnvironmentFactory.createInstance_process_of_some _ _ _ _ hsome, ?_⟩
    rw [hcp, ← hq]
    exact JavaEnvironmentFactory.createInstance_events_same_path _ _ _ hsome

/-- Witness for C5: two `createInstance("a.jar")` calls on a healthy macOS
machine publish the singleton exactly once. -/
theorem C5_createInstance_idempotent_witness :
    Call.creations (Process.initial "")
      [{ world := World.healthy Platform.macOS, caller := 0, classPath := "a.jar" },
       { world := World.healthy Platform.macOS, caller := 1, classPath := "a.jar" }] = 1 :=
  (C5_createInstance_idempotent "a.jar"
    [{ world := World.healthy Platform.macOS, caller := 0, classPath := "a.jar" },
     { world := World.healthy Platform.macOS, caller := 1, classPath := "a.jar" }]
    (Process.initial "") rfl
    (by intro c hc; simp at hc; rcases hc with rfl | rfl <;> rfl)).2.2.1
    { world := World.healthy Platform.macOS, caller := 0, classPath := "a.jar" }
    [{ world := World.healthy Platform.macOS, caller := 1, classPath := "a.jar" }]
    rfl (by decide) (by decide)

/-- C6: for all paths `pathA ≠ pathB`, if `createInstance(pathA)`, called without
a singleton, has published the singleton, then the stored class path is
`pathA`; a following `createInstance(pathB)` leaves the whole process state
(instance and stored class path included) untouched and its only action is the
error report `java classpath cannot be changed!`, so neither the locator nor
the launch call runs; and after any later sequence of `createInstance` calls
the process state, hence the stored class path, is still the same. -/
theorem C6_conflicting_path_is_rejected (wA : World) (callerA : ThreadId)
    (pathA pathB : String) (p : Process) (hp : p.s_instance = none) (hne : pathA ≠ pathB)
    (hpub : (JavaEnvironmentFactory.createInstance wA callerA pathA
      p).process.s_instance.isSome = true) :
    (JavaEnvironmentFactory.createInstance wA callerA pathA p).process.s_classPath = pathA ∧
    (∀ (wB : World) (callerB : ThreadId),
      (JavaEnvironmentFactory.createInstance wB callerB pathB
          (JavaEnvironmentFactory.createInstance wA callerA pathA p).process).process
        = (JavaEnvironmentFactory.createInstance wA callerA pathA p).process ∧
      (JavaEnvironmentFactory.createInstance wB callerB pathB
          (JavaEnvironmentFactory.createInstance wA callerA pathA p).process).events
        = [Event.logError "java classpath cannot be changed!"]) ∧
    (∀ calls : List Call,
      (Call.runCalls (JavaEnvironmentFactory.createInstance wA callerA pathA p).process
          calls).process
        = (JavaEnvironmentFactory.createInstance wA callerA pathA p).process ∧
      (Call.runCalls (JavaEnvironmentFactory.createInstance wA callerA pathA p).process
          calls).process.s_classPath = pathA) := by
  have hcp := JavaEnvironmentFactory.createInstance_classPath_of_published wA callerA pathA p hp
    hpub
  refine ⟨hcp, ?_, ?_⟩
  · intro wB callerB
    refine ⟨JavaEnvironmentFactory.createInstance_process_of_some _ _ _ _ hpub, ?_⟩
    apply JavaEnvironmentFactory.createInstance_events_other_path _ _ _ _ hpub
    rw [hcp]
    exact fun h => hne h.symm
  · intro calls
    have h := Call.runCalls_process_of_some calls _ hpub
    exact ⟨h, by rw [h, hcp]⟩

/-- Witness for C6: `createInstance("a.jar")` on a healthy macOS machine, then
`createInstance("b.jar")`. -/
theorem C6_conflicting_path_is_rejected_witness :
    (JavaEnvironmentFactory.createInstance (World.healthy Platform.macOS) 1 "b.jar"
        (JavaEnvironmentFactory.createInstance (World.healthy Platform.macOS) 0 "a.jar"
          (Process.initial "")).process).events
      = [Event.logError "java classpath cannot be changed!"] :=
  ((C6_conflicting_path_is_rejected (World.healthy Platform.macOS) 0 "a.jar" "b.jar"
    (Process.initial "") rfl (by decide) (by decide)).2.1
    (World.healthy Platform.macOS) 1).2

/-- C7: for every search path, when no singleton exists and the locator reports
not-found, `createInstance` performs, after the locator probes, exactly the
two error reports (the `LOG_ERROR` entry and the status notification with
its error flag set), never the launch call; it leaves no singleton and the
stored class path as it was, and a subsequent `getInstance()` returns absent.
`getInstance()` itself returns the stored instance and leaves every process
state unchanged. -/
theorem C7_locator_failure (w : World) (caller : ThreadId) (classPath : String) (p : Process)
    (hp : p.s_instance = none)
    (hl : (JavaEnvironmentFactory.locate w p.env_path).javaFound = false) :
    (JavaEnvironmentFactory.createInstance w caller classPath p).events =
      (JavaEnvironmentFactory.locate w p.env_path).events ++
        [Event.logError "Unable to locate Java on this machine.",
         Event.messageStatus "Unable to locate Java on this machine." true false] ∧
    (∀ args, Event.createJavaVM args ∉
      (JavaEnvironmentFactory.createInstance w caller classPath p).events) ∧
    (JavaEnvironmentFactory.createInstance w caller classPath p).process.s_instance = none ∧
    (JavaEnvironmentFactory.createInstance w caller classPath p).process.s_classPath
      = p.s_classPath ∧
    (JavaEnvironmentFactory.getInstance
      (JavaEnvironmentFactory.createInstance w caller classPath p).process).1 = none ∧
    (∀ q : Process, (JavaEnvironmentFactory.getInstance q).1 = q.s_instance ∧
      (JavaEnvironmentFactory.getInstance q).2 = q) := by
  have hev : (JavaEnvironmentFactory.createInstance w caller classPath p).events =
      (JavaEnvironmentFactory.locate w p.env_path).events ++
        [Event.logError "Unable to locate Java on this machine.",
         Event.messageStatus "Unable to locate Java on this machine." true false] := by
    simp [JavaEnvironmentFactory.createInstance, hp, hl]
  have hpr : (JavaEnvironmentFactory.createInstance w caller classPath p).process =
      { p with env_path := (JavaEnvironmentFactory.locate w p.env_path).env_path } := by
    simp [JavaEnvironmentFactory.createInstance, hp, hl]
  refine ⟨hev, ?_, ?_, ?_, ?_, ?_⟩
  · intro args hmem
    rw [hev] at hmem
    simp only [List.mem_append, List.mem_cons, List.mem_singleton, List.not_mem_nil,
      or_false] at hmem
    rcases hmem with h | h | h
    · exact JavaEnvironmentFactory.locate_events_no_launch w p.env_path args h
    · cases h
    · cases h
  · rw [hpr]; exact hp
  · rw [hpr]
  · rw [hpr]; exact hp
  · intro q; exact ⟨rfl, rfl⟩

/-- Witness for C7: a macOS build on a machine where no candidate library loads. -/
theorem C7_locator_failure_witness :
    (JavaEnvironmentFactory.getInstance
      (JavaEnvironmentFactory.createInstance World.withoutJava 0 "a.jar"
        (Process.initial "")).process).1 = none :=
  (C7_locator_failure World.withoutJava 0 "a.jar" (Process.initial "") rfl
    (by decide)).2.2.2.2.1

/-- C8, as stated, fails: in a build with neither platform block, on a machine
where every probe would succeed and the JVM would launch, the locator result
is not-found and `createInstance` stops with the two `Unable to locate Java`
reports, without a launch call and without a singleton. -/
theorem C8_counterexample :
    (JavaEnvironmentFactory.locate (World.healthy Platform.other) "").javaFound = false ∧
    (JavaEnvironmentFactory.createInstance (World.healthy Platform.other) 0 "a.jar"
        (Process.initial "")).events =
      [Event.logError "Unable to locate Java on this machine.",
       Event.messageStatus "Unable to locate Java on this machine." true false] ∧
    (JavaEnvironmentFactory.createInstance (World.healthy Platform.other) 0 "a.jar"
        (Process.initial "")).process.s_instance = none := by
  refine ⟨rfl, rfl, rfl⟩

/-- C8, amended: on a platform without special handling (neither the `_WIN32`
nor the `__APPLE__` block is compiled in) the locator result used by
`createInstance` is not-found, whatever the collaborators would answer:
`createInstance` with no existing singleton performs exactly the two
`Unable to locate Java` reports, does not reach the launch call, and leaves
the process state unchanged. -/
theorem C8_unhandled_platform_never_finds_java (w : World) (caller : ThreadId)
    (classPath : String) (p : Process) (hw : w.platform.win32 = false)
    (ha : w.platform.apple = false) (hp : p.s_instance = none) :
    (JavaEnvironmentFactory.locate w p.env_path).javaFound = false ∧
    (JavaEnvironmentFactory.createInstance w caller classPath p).events =
      [Event.logError "Unable to locate Java on this machine.",
       Event.messageStatus "Unable to locate Java on this machine." true false] ∧
    (∀ args, Event.createJavaVM args ∉
      (JavaEnvironmentFactory.createInstance w caller classPath p).events) ∧
    (JavaEnvironmentFactory.createInstance w caller classPath p).process = p := by
  have hl : JavaEnvironmentFactory.locate w p.env_path =
      { javaFound := false, env_path := p.env_path, events := [] } := by
    simp [JavaEnvironmentFactory.locate, hw, ha]
  have hev : (JavaEnvironmentFactory.createInstance w caller classPath p).events =
      [Event.logError "Unable to locate Java on this machine.",
       Event.messageStatus "Unable to locate Java on this machine." true false] := by
    simp [JavaEnvironmentFactory.createInstance, hp, hl]
  refine ⟨by rw [hl], hev, ?_, ?_⟩
  · intro args hmem
    rw [hev] at hmem
    simp at hmem
  · cases p with
    | mk inst cp ep =>
      simp only at hp hl
      subst hp
      simp [JavaEnvironmentFactory.createInstance, hl]

/-- Witness for C8 (amended): a build with neither platform block on a healthy
machine. -/
theorem C8_unhandled_platform_never_finds_java_witness :
    (JavaEnvironmentFactory.createInstance (World.healthy Platform.other) 0 "a.jar"
        (Process.initial "")).process = Process.initial "" :=
  (C8_unhandled_platform_never_finds_java (World.healthy Platform.other) 0 "a.jar"
    (Process.initial "") rfl rfl rfl).2.2.2

theorem decimalValue_append_singleton (digits : List Char) (ch : Char) :
    decimalValue (digits ++ [ch]) = 10 * decimalValue digits + (ch.toNat - 48) := by
  simp [decimalValue, List.foldl_append]

theorem digitChar_decimal (d : Nat) (h : d < 10) :
    (Nat.digitChar d).isDigit = true ∧ (Nat.digitChar d).toNat - 48 = d := by
  interval_cases d <;> decide

theorem toDigitsCore_decimal (fuel : Nat) :
    ∀ (n : Nat) (ds : List Char), n < fuel →
      ∃ hs : List Char, Nat.toDigitsCore 10 fuel n ds = hs ++ ds ∧ hs ≠ [] ∧
        (∀ ch ∈ hs, ch.isDigit = true) ∧ decimalValue hs = n := by
  induction fuel with
  | zero => intro n ds h; omega
  | succ fuel ih =>
    intro n ds h
    obtain ⟨hd1, hd2⟩ := digitChar_decimal (n % 10) (Nat.mod_lt _ (by decide))
    by_cases h0 : n / 10 = 0
    · refine ⟨[Nat.digitChar (n % 10)], by simp [Nat.toDigitsCore, h0], by simp, ?_, ?_⟩
      · intro ch hch
        simp at hch
        rw [hch]; exact hd1
      · simp only [decimalValue, List.foldl, hd2]
        omega
    · obtain ⟨hs, e1, e2, e3, e4⟩ := ih (n / 10) (Nat.digitChar (n % 10) :: ds) (by omega)
      refine ⟨hs ++ [Nat.digitChar (n % 10)], ?_, by simp, ?_, ?_⟩
      · simp [Nat.toDigitsCore, h0, e1]
      · intro ch hch
        simp only [List.mem_append, List.mem_singleton] at hch
        rcases hch with hch | hch
        · exact e3 ch hch
        · rw [hch]; exact hd1
      · rw [decimalValue_append_singleton, e4, hd2]
        omega

theorem nat_repr_decimal (n : Nat) :
    ∃ hs : List Char, Nat.repr n = String.mk hs ∧ hs ≠ [] ∧
      (∀ ch ∈ hs, ch.isDigit = true) ∧ decimalValue hs = n := by
  obtain ⟨hs, e1, e2, e3, e4⟩ := toDigitsCore_decimal (n + 1) n [] (by omega)
  refine ⟨hs, ?_, e2, e3, e4⟩
  simp [Nat.repr, Nat.toDigits, e1, List.asString]

/-- The rendering `to_string` is the decimal one: an optional minus sign
followed by a non-empty string of decimal digits that denote the absolute
value. -/
theorem to_string_decimal (n : Int) :
    ∃ hs : List Char,
      to_string n = (if n < 0 then "-" else "") ++ String.mk hs ∧ hs ≠ [] ∧
      (∀ ch ∈ hs, ch.isDigit = true) ∧ decimalValue hs = n.natAbs := by
  cases n with
  | ofNat m =>
    obtain ⟨hs, e1, e2, e3, e4⟩ := nat_repr_decimal m
    refine ⟨hs, ?_, e2, e3, ?_⟩
    · show toString (Int.ofNat m) = _
      have : ¬ (Int.ofNat m < 0) := by simp
      simp only [this, if_false]
      show Nat.repr m = _
      rw [e1]; simp
    · simpa using e4
  | negSucc m =>
    obtain ⟨hs, e1, e2, e3, e4⟩ := nat_repr_decimal (m + 1)
    refine ⟨hs, ?_, e2, e3, ?_⟩
    · have : Int.negSucc m < 0 := Int.negSucc_lt_zero m
      simp only [this, if_true]
      show "-" ++ Nat.repr (m + 1) = _
      rw [e1]
    · simpa using e4

/-- C9: when no singleton exists, the locator reports found and the launch call
returns a status code `rc` other than `JNI_OK`, `createInstance` publishes no
singleton (`getInstance()` stays absent) and, after the locator probes and the
launch call, performs exactly two reports carrying the message selected by
`rc`: the `LOG_ERROR` entry with that message and the status notification with
its error flag set.  The message for `JNI_EVERSION`, `JNI_ENOMEM`,
`JNI_EINVAL` and `JNI_EEXIST` is the version, memory, argument and
one-JVM-per-process text respectively; for every other code it is the
fallback text embedding the decimal rendering of `rc`; the four named texts
are pairwise distinct and differ from the fallback text of every code.  The
rendering in the fallback text is the decimal one: a minus sign for a negative
code, then a non-empty string of digits `0`-`9` whose decimal value is the
absolute value of `rc`. -/
theorem C9_launch_failure_is_mapped (w : World) (caller : ThreadId) (classPath : String)
    (p : Process) (hp : p.s_instance = none)
    (hl : (JavaEnvironmentFactory.locate w p.env_path).javaFound = true)
    (hrc : (w.JNI_CreateJavaVM (JavaEnvironmentFactory.vmArgs w classPath)).1 ≠ JNI_OK) :
    ((JavaEnvironmentFactory.createInstance w caller classPath p).process.s_instance = none ∧
      (JavaEnvironmentFactory.getInstance
        (JavaEnvironmentFactory.createInstance w caller classPath p).process).1 = none ∧
      (JavaEnvironmentFactory.createInstance w caller classPath p).events =
        (JavaEnvironmentFactory.locate w p.env_path).events ++
          [Event.createJavaVM (JavaEnvironmentFactory.vmArgs w classPath),
           Event.logError (JavaEnvironmentFactory.launchErrorMessage
             (w.JNI_CreateJavaVM (JavaEnvironmentFactory.vmArgs w classPath)).1),
           Event.messageStatus
             ("Error while creating Java environment: " ++
               JavaEnvironmentFactory.launchErrorMessage
                 (w.JNI_CreateJavaVM (JavaEnvironmentFactory.vmArgs w classPath)).1)
             true false]) ∧
    (JavaEnvironmentFactory.launchErrorMessage JNI_EVERSION
        = "JVM is oudated and doesn't meet requirements" ∧
      JavaEnvironmentFactory.launchErrorMessage JNI_ENOMEM = "not enough memory for JVM" ∧
      JavaEnvironmentFactory.launchErrorMessage JNI_EINVAL
        = "invalid argument for launching JVM" ∧
      JavaEnvironmentFactory.launchErrorMessage JNI_EEXIST
        = "the process can only launch one JVM an not more" ∧
      ∀ rc : Int, rc ≠ JNI_EVERSION → rc ≠ JNI_ENOMEM → rc ≠ JNI_EINVAL → rc ≠ JNI_EEXIST →
        JavaEnvironmentFactory.launchErrorMessage rc
          = "could not create the JVM instance (error code " ++ to_string rc ++ ")") ∧
    (JavaEnvironmentFactory.launchErrorMessage JNI_EVERSION
        ≠ JavaEnvironmentFactory.launchErrorMessage JNI_ENOMEM ∧
      JavaEnvironmentFactory.launchErrorMessage JNI_EVERSION
        ≠ JavaEnvironmentFactory.launchErrorMessage JNI_EINVAL ∧
      JavaEnvironmentFactory.launchErrorMessage JNI_EVERSION
        ≠ JavaEnvironmentFactory.launchErrorMessage JNI_EEXIST ∧
      JavaEnvironmentFactory.launchErrorMessage JNI_ENOMEM
        ≠ JavaEnvironmentFactory.launchErrorMessage JNI_EINVAL ∧
      JavaEnvironmentFactory.launchErrorMessage JNI_ENOMEM
        ≠ JavaEnvironmentFactory.launchErrorMessage JNI_EEXIST ∧
      JavaEnvironmentFactory.launchErrorMessage JNI_EINVAL
        ≠ JavaEnvironmentFactory.launchErrorMessage JNI_EEXIST ∧
      ∀ rc : Int, rc ≠ JNI_EVERSION → rc ≠ JNI_ENOMEM → rc ≠ JNI_EINVAL → rc ≠ JNI_EEXIST →
        JavaEnvironmentFactory.launchErrorMessage rc
            ≠ JavaEnvironmentFactory.launchErrorMessage JNI_EVERSION ∧
          JavaEnvironmentFactory.launchErrorMessage rc
            ≠ JavaEnvironmentFactory.launchErrorMessage JNI_ENOMEM ∧
          JavaEnvironmentFactory.launchErrorMessage rc
            ≠ JavaEnvironmentFactory.launchErrorMessage JNI_EINVAL ∧
          JavaEnvironmentFactory.launchErrorMessage rc
            ≠ JavaEnvironmentFactory.launchErrorMessage JNI_EEXIST) ∧
    (∀ rc : Int, rc ≠ JNI_EVERSION → rc ≠ JNI_ENOMEM → rc ≠ JNI_EINVAL → rc ≠ JNI_EEXIST →
      ∃ digits : List Char,
        JavaEnvironmentFactory.launchErrorMessage rc
          = "could not create the JVM instance (error code " ++
              ((if rc < 0 then "-" else "") ++ String.mk digits) ++ ")" ∧
        digits ≠ [] ∧ (∀ ch ∈ digits, ch.isDigit = true) ∧
        decimalValue digits = rc.natAbs) := by
  have hfall : ∀ rc : Int, rc ≠ JNI_EVERSION → rc ≠ JNI_ENOMEM → rc ≠ JNI_EINVAL →
      rc ≠ JNI_EEXIST → JavaEnvironmentFactory.launchErrorMessage rc
        = "could not create the JVM instance (error code " ++ to_string rc ++ ")" := by
    intro rc h1 h2 h3 h4
    simp [JavaEnvironmentFactory.launchErrorMessage, h1, h2, h3, h4]
  have hhead : ∀ (s t : String), t.data.head? ≠ some 'c' →
      "could not create the JVM instance (error code " ++ s ++ ")" ≠ t := by
    intro s t ht h
    apply ht
    rw [← h]
    simp
  refine ⟨⟨?_, ?_, ?_⟩, ⟨by decide, by decide, by decide, by decide, hfall⟩,
    ⟨by decide, by decide, by decide, by decide, by decide, by decide, ?_⟩, ?_⟩
  · simp [JavaEnvironmentFactory.createInstance, hp, hl, JavaEnvironmentFactory.launch, hrc]
  · simp [JavaEnvironmentFactory.getInstance, JavaEnvironmentFactory.createInstance, hp, hl,
      JavaEnvironmentFactory.launch, hrc]
  · simp [JavaEnvironmentFactory.createInstance, hp, hl, JavaEnvironmentFactory.launch, hrc]
  · intro rc h1 h2 h3 h4
    rw [hfall rc h1 h2 h3 h4]
    exact ⟨hhead _ _ (by decide), hhead _ _ (by decide), hhead _ _ (by decide),
      hhead _ _ (by decide)⟩
  · intro rc h1 h2 h3 h4
    obtain ⟨digits, e1, e2, e3, e4⟩ := to_string_decimal rc
    exact ⟨digits, by rw [hfall rc h1 h2 h3 h4, e1], e2, e3, e4⟩

/-- Witness for C9: the launch call answers `JNI_EEXIST`, and it answers the
unnamed code -1, whose report is the fallback text with `-1` in it. -/
theorem C9_launch_failure_is_mapped_witness :
    (JavaEnvironmentFactory.createInstance (World.failingLaunch JNI_EEXIST) 0 "a.jar"
        (Process.initial "")).process.s_instance = none ∧
    (JavaEnvironmentFactory.createInstance (World.failingLaunch JNI_EEXIST) 0 "a.jar"
        (Process.initial "")).events =
      (JavaEnvironmentFactory.locate (World.failingLaunch JNI_EEXIST) "").events ++
        [Event.createJavaVM
           (JavaEnvironmentFactory.vmArgs (World.failingLaunch JNI_EEXIST) "a.jar"),
         Event.logError (JavaEnvironmentFactory.launchErrorMessage JNI_EEXIST),
         Event.messageStatus
           ("Error while creating Java environment: " ++
             JavaEnvironmentFactory.launchErrorMessage JNI_EEXIST) true false] ∧
    ((JavaEnvironmentFactory.createInstance (World.failingLaunch (-1)) 0 "a.jar"
        (Process.initial "")).events =
      (JavaEnvironmentFactory.locate (World.failingLaunch (-1)) "").events ++
        [Event.createJavaVM
           (JavaEnvironmentFactory.vmArgs (World.failingLaunch (-1)) "a.jar"),
         Event.logError (JavaEnvironmentFactory.launchErrorMessage
           ((World.failingLaunch (-1)).JNI_CreateJavaVM
             (JavaEnvironmentFactory.vmArgs (World.failingLaunch (-1)) "a.jar")).1),
         Event.messageStatus
           ("Error while creating Java environment: " ++
             JavaEnvironmentFactory.launchErrorMessage
               ((World.failingLaunch (-1)).JNI_CreateJavaVM
                 (JavaEnvironmentFactory.vmArgs (World.failingLaunch (-1)) "a.jar")).1)
           true false]) ∧
    JavaEnvironmentFactory.launchErrorMessage
        ((World.failingLaunch (-1)).JNI_CreateJavaVM
          (JavaEnvironmentFactory.vmArgs (World.failingLaunch (-1)) "a.jar")).1
      = "could not create the JVM instance (error code -1)" ∧
    JavaEnvironmentFactory.launchErrorMessage 2147483647
      = "could not create the JVM instance (error code 2147483647)" :=
  ⟨(C9_launch_failure_is_mapped (World.failingLaunch JNI_EEXIST) 0 "a.jar"
      (Process.initial "") rfl (by decide) (by decide)).1.1,
   (C9_launch_failure_is_mapped (World.failingLaunch JNI_EEXIST) 0 "a.jar"
      (Process.initial "") rfl (by decide) (by decide)).1.2.2,
   (C9_launch_failure_is_mapped (World.failingLaunch (-1)) 0 "a.jar"
      (Process.initial "") rfl (by decide) (by decide)).1.2.2,
   by decide, by decide⟩

/-- C10, evaluated at the configuration conflict: after `createInstance("a.jar")`
has published the singleton on a healthy macOS machine, `createInstance("b.jar")`
performs exactly one action, the `LOG_ERROR` entry; no status notification is
dispatched. -/
theorem C10_conflict_dispatches_no_notification :
    (JavaEnvironmentFactory.createInstance (World.healthy Platform.macOS) 0 "b.jar"
        (JavaEnvironmentFactory.createInstance (World.healthy Platform.macOS) 0 "a.jar"
          (Process.initial "")).process).events
      = [Event.logError "java classpath cannot be changed!"] ∧
    ∀ (status : String) (isError showLoader : Bool),
      Event.messageStatus status isError showLoader ∉
        (JavaEnvironmentFactory.createInstance (World.healthy Platform.macOS) 0 "b.jar"
          (JavaEnvironmentFactory.createInstance (World.healthy Platform.macOS) 0 "a.jar"
            (Process.initial "")).process).events := by
  have h : (JavaEnvironmentFactory.createInstance (World.healthy Platform.macOS) 0 "b.jar"
        (JavaEnvironmentFactory.createInstance (World.healthy Platform.macOS) 0 "a.jar"
          (Process.initial "")).process).events
      = [Event.logError "java classpath cannot be changed!"] := by
    apply JavaEnvironmentFactory.createInstance_events_other_path
    · decide
    · decide
  refine ⟨h, ?_⟩
  intro status isError showLoader hmem
  rw [h] at hmem
  simp at hmem

/-! ## Thread table: effect of one call on the entries -/

namespace TableOp

theorem step_jvm (f : JavaEnvironmentFactory) (op : TableOp) :
    (step f op).factory.m_jvm = f.m_jvm := by
  cases op with
  | create t a =>
    simp only [step, JavaEnvironmentFactory.createEnvironment]
    split <;> rfl
  | register t =>
    simp only [step, JavaEnvironmentFactory.registerEnvironment]
    split <;> rfl
  | unregister t =>
    simp only [step, JavaEnvironmentFactory.unregisterEnvironment]
    split
    · split <;> rfl
    · rfl

theorem run_jvm (ops : List TableOp) :
    ∀ f : JavaEnvironmentFactory, (run f ops).factory.m_jvm = f.m_jvm := by
  induction ops with
  | nil => intro f; rfl
  | cons op rest ih => intro f; simp only [run, ih, step_jvm]

theorem create_other (f : JavaEnvironmentFactory) (T U : ThreadId) (a : JNIEnvPtr)
    (h : T ≠ U) :
    (f.createEnvironment T a).1.factory.m_threadIdToEnvAndUserCount U
      = f.m_threadIdToEnvAndUserCount U := by
  have hU : ¬ U = T := fun e => h e.symm
  simp only [JavaEnvironmentFactory.createEnvironment]
  cases ht : f.m_threadIdToEnvAndUserCount T with
  | some it => rfl
  | none => simp [ThreadTable.insert, ThreadTable.set, ht, hU]

theorem register_other (f : JavaEnvironmentFactory) (T U : ThreadId) (h : T ≠ U) :
    (f.registerEnvironment T).factory.m_threadIdToEnvAndUserCount U
      = f.m_threadIdToEnvAndUserCount U := by
  have hU : ¬ U = T := fun e => h e.symm
  simp only [JavaEnvironmentFactory.registerEnvironment]
  cases ht : f.m_threadIdToEnvAndUserCount T with
  | some it => simp [ThreadTable.set, hU]
  | none => rfl

theorem unregister_other (f : JavaEnvironmentFactory) (T U : ThreadId) (h : T ≠ U) :
    (f.unregisterEnvironment T).factory.m_threadIdToEnvAndUserCount U
      = f.m_threadIdToEnvAndUserCount U := by
  have hU : ¬ U = T := fun e => h e.symm
  simp only [JavaEnvironmentFactory.unregisterEnvironment]
  cases ht : f.m_threadIdToEnvAndUserCount T with
  | some it =>
    by_cases h0 : wrapInt32 (it.2 - 1) = 0
    · simp [h0, ThreadTable.erase, hU]
    · simp [h0, ThreadTable.set, hU]
  | none => rfl

end TableOp

theorem attachCount_append (t : ThreadId) (a b : List Event) :
    attachCount t (a ++ b) = attachCount t a + attachCount t b := by
  induction a with
  | nil => simp [attachCount]
  | cons ev rest ih => cases ev <;> simp [attachCount, ih, add_assoc]

theorem detachCount_append (t : ThreadId) (a b : List Event) :
    detachCount t (a ++ b) = detachCount t a + detachCount t b := by
  induction a with
  | nil => simp [detachCount]
  | cons ev rest ih => cases ev <;> simp [detachCount, ih, add_assoc]

namespace TableOp

/-- Where the entry of `u` after a call comes from: it was there before with
the same context pointer, or the call is the `createEnvironment()` on `u`
that inserted it with the attach result and count 0. -/
theorem step_pointer_origin (f : JavaEnvironmentFactory) (op : TableOp) (u : ThreadId)
    (e : JNIEnvPtr) (c : Int)
    (h : (step f op).factory.m_threadIdToEnvAndUserCount u = some (e, c)) :
    (∃ c0, f.m_threadIdToEnvAndUserCount u = some (e, c0)) ∨
      (f.m_threadIdToEnvAndUserCount u = none ∧ op = create u e ∧ c = 0) := by
  cases op with
  | create t a =>
    by_cases hut : t = u
    · subst hut
      simp only [step, JavaEnvironmentFactory.createEnvironment] at h
      cases ht : f.m_threadIdToEnvAndUserCount t with
      | some it =>
        simp only [ht] at h
        exact Or.inl ⟨c, h⟩
      | none =>
        simp [ht, ThreadTable.insert, ThreadTable.set] at h
        exact Or.inr ⟨rfl, by rw [h.1], h.2.symm⟩
    · rw [step, create_other f t u a hut] at h
      exact Or.inl ⟨c, h⟩
  | register t =>
    by_cases hut : t = u
    · subst hut
      simp only [step, JavaEnvironmentFactory.registerEnvironment] at h
      cases ht : f.m_threadIdToEnvAndUserCount t with
      | some it =>
        simp [ht, ThreadTable.set] at h
        exact Or.inl ⟨it.2, by rw [← h.1]⟩
      | none => simp [ht] at h
    · rw [step, register_other f t u hut] at h
      exact Or.inl ⟨c, h⟩
  | unregister t =>
    by_cases hut : t = u
    · subst hut
      simp only [step, JavaEnvironmentFactory.unregisterEnvironment] at h
      cases ht : f.m_threadIdToEnvAndUserCount t with
      | some it =>
        simp only [ht] at h
        by_cases h0 : wrapInt32 (it.2 - 1) = 0
        · simp [h0, ThreadTable.erase] at h
        · simp [h0, ThreadTable.set] at h
          exact Or.inl ⟨it.2, by rw [← h.1]⟩
      | none => simp [ht] at h
    · rw [step, unregister_other f t u hut] at h
      exact Or.inl ⟨c, h⟩

theorem step_env_kept (f : JavaEnvironmentFactory) (op : TableOp) (T : ThreadId)
    (e : JNIEnvPtr) (c : Int) (h : f.m_threadIdToEnvAndUserCount T = some (e, c))
    (hs : ((step f op).factory.m_threadIdToEnvAndUserCount T).isSome = true) :
    ∃ c1, (step f op).factory.m_threadIdToEnvAndUserCount T = some (e, c1) := by
  cases hq : (step f op).factory.m_threadIdToEnvAndUserCount T with
  | none => simp [hq] at hs
  | some it =>
    rcases step_pointer_origin f op T it.1 it.2 hq with ⟨c0, h0⟩ | ⟨hn, _, _⟩
    · rw [h] at h0
      simp only [Option.some.injEq, Prod.mk.injEq] at h0
      exact ⟨it.2, by rw [h0.1]⟩
    · rw [h] at hn; cases hn

theorem step_no_attach_of_present (f : JavaEnvironmentFactory) (op : TableOp) (T : ThreadId)
    (h : (f.m_threadIdToEnvAndUserCount T).isSome = true) :
    attachCount T (step f op).events = 0 := by
  cases op with
  | create t a =>
    simp only [step, JavaEnvironmentFactory.createEnvironment]
    cases ht : f.m_threadIdToEnvAndUserCount t with
    | some it => simp [attachCount]
    | none =>
      have hne : ¬ t = T := by
        intro heq; subst heq; simp [ht] at h
      simp [attachCount, hne]
  | register t =>
    simp only [step, JavaEnvironmentFactory.registerEnvironment]
    split <;> simp [attachCount]
  | unregister t =>
    simp only [step, JavaEnvironmentFactory.unregisterEnvironment]
    split
    · split <;> simp [attachCount]
    · simp [attachCount]

theorem run_tracked (T : ThreadId) (e : JNIEnvPtr) (mid : List TableOp) :
    ∀ (f : JavaEnvironmentFactory) (c : Int), f.m_threadIdToEnvAndUserCount T = some (e, c) →
      tracked f T mid = true →
      (∃ c1, (run f mid).factory.m_threadIdToEnvAndUserCount T = some (e, c1)) ∧
        attachCount T (run f mid).events = 0 := by
  induction mid with
  | nil => intro f c h _; exact ⟨⟨c, h⟩, rfl⟩
  | cons op rest ih =>
    intro f c h ht
    simp only [tracked, Bool.and_eq_true] at ht
    obtain ⟨c1, h1⟩ := step_env_kept f op T e c h ht.1
    obtain ⟨g1, g2⟩ := ih _ c1 h1 ht.2
    refine ⟨g1, ?_⟩
    simp only [run, attachCount_append, g2, add_zero]
    exact step_no_attach_of_present f op T (by rw [h]; rfl)

theorem pointersDistinct_run (ops : List TableOp) :
    ∀ f : JavaEnvironmentFactory, pointersDistinct f → attachesFresh f ops →
      pointersDistinct (run f ops).factory := by
  induction ops with
  | nil => intro f hd _; exact hd
  | cons op rest ih =>
    intro f hd hfr
    obtain ⟨hop, hrest⟩ := hfr
    refine ih _ ?_ hrest
    intro u v e c d hu hv
    rcases step_pointer_origin f op u e c hu with ⟨cu, hu0⟩ | ⟨hun, hopu, _⟩
    · rcases step_pointer_origin f op v e d hv with ⟨cv, hv0⟩ | ⟨hvn, hopv, _⟩
      · exact hd u v e cu cv hu0 hv0
      · subst hopv
        exact absurd rfl (hop hvn u e cu hu0)
    · rcases step_pointer_origin f op v e d hv with ⟨cv, hv0⟩ | ⟨hvn, hopv, _⟩
      · subst hopu
        exact absurd rfl (hop hun v e cv hv0)
      · rw [hopu] at hopv
        cases hopv
        rfl

end TableOp

namespace TableOp

theorem create_present (f : JavaEnvironmentFactory) (T : ThreadId) (a e : JNIEnvPtr) (c : Int)
    (h : f.m_threadIdToEnvAndUserCount T = some (e, c)) :
    f.createEnvironment T a = ({ factory := f, events := [] }, { m_jvm := f.m_jvm, m_env := e }) := by
  simp [JavaEnvironmentFactory.createEnvironment, h]

theorem create_entry (f : JavaEnvironmentFactory) (T : ThreadId) (a : JNIEnvPtr) :
    (∃ c, (f.createEnvironment T a).1.factory.m_threadIdToEnvAndUserCount T
        = some ((f.createEnvironment T a).2.m_env, c)) ∧
      (f.createEnvironment T a).2.m_jvm = f.m_jvm ∧
      (f.createEnvironment T a).1.factory.m_jvm = f.m_jvm := by
  cases hf : f.m_threadIdToEnvAndUserCount T with
  | some it =>
    rw [create_present f T a it.1 it.2 hf]
    exact ⟨⟨it.2, hf⟩, rfl, rfl⟩
  | none =>
    simp [JavaEnvironmentFactory.createEnvironment, hf, ThreadTable.insert, ThreadTable.set]

end TableOp

/-! ## Thread table: the remaining claims -/

/-- C11: for every table state and thread `T`, if between two
`createEnvironment()` calls on `T` the calls made (by any threads) never
remove the entry of `T`, the second call returns a handle equal to the first
one (same runtime, same context pointer) and performs no action, and no
`AttachCurrentThread` is executed on `T` in between either: only the first
call can attach.  And, assuming every attach yields a pointer not stored in
the table at that moment, in every table reachable from the empty one no two
distinct thread keys hold the same context pointer. -/
theorem C11_context_bound_per_thread (f : JavaEnvironmentFactory) (T : ThreadId)
    (a1 a2 : JNIEnvPtr) (mid : List TableOp)
    (hmid : TableOp.tracked (f.createEnvironment T a1).1.factory T mid = true)
    (jvm : JavaVMPtr) (ops : List TableOp)
    (hfresh : TableOp.attachesFresh (JavaEnvironmentFactory.construct jvm) ops) :
    ((TableOp.run (f.createEnvironment T a1).1.factory mid).factory.createEnvironment T a2).2
        = (f.createEnvironment T a1).2 ∧
    ((TableOp.run (f.createEnvironment T a1).1.factory mid).factory.createEnvironment T
        a2).1.events = [] ∧
    attachCount T (TableOp.run (f.createEnvironment T a1).1.factory mid).events = 0 ∧
    TableOp.pointersDistinct (TableOp.run (JavaEnvironmentFactory.construct jvm) ops).factory := by
  obtain ⟨⟨c, h1⟩, hj, hfj⟩ := TableOp.create_entry f T a1
  obtain ⟨⟨c1, h2⟩, h3⟩ := TableOp.run_tracked T _ mid _ c h1 hmid
  have hjvm := TableOp.run_jvm mid (f.createEnvironment T a1).1.factory
  rw [TableOp.create_present _ T a2 _ c1 h2]
  refine ⟨?_, rfl, h3, ?_⟩
  · rw [hjvm, hfj, ← hj]
  · apply TableOp.pointersDistinct_run ops _ _ hfresh
    intro u v e c d hu
    simp [JavaEnvironmentFactory.construct, ThreadTable.empty] at hu

/-- The attach results 40 and 41 of the example run are fresh when handed out. -/
theorem attachesFresh_example :
    TableOp.attachesFresh (JavaEnvironmentFactory.construct 1)
      [TableOp.create 7 40, TableOp.register 7, TableOp.create 8 41] := by
  simp only [TableOp.attachesFresh, TableOp.step, and_true, true_and]
  refine ⟨?_, ?_⟩
  · intro _ u e c hu
    simp [JavaEnvironmentFactory.construct, ThreadTable.empty] at hu
  · intro _ u e c hu
    by_cases h7 : u = 7
    · simp [JavaEnvironmentFactory.construct, ThreadTable.empty,
        JavaEnvironmentFactory.createEnvironment, JavaEnvironmentFactory.registerEnvironment,
        ThreadTable.insert, ThreadTable.set, h7] at hu
      obtain ⟨rfl, _⟩ := hu
      decide
    · simp [JavaEnvironmentFactory.construct, ThreadTable.empty,
        JavaEnvironmentFactory.createEnvironment, JavaEnvironmentFactory.registerEnvironment,
        ThreadTable.insert, ThreadTable.set, h7] at hu

/-- Witness for C11: thread 7 creates, registers, thread 8 creates and registers,
thread 7 creates again; the attach results 40 and 41 are distinct. -/
theorem C11_context_bound_per_thread_witness :
    ((TableOp.run ((JavaEnvironmentFactory.construct 1).createEnvironment 7 40).1.factory
        [TableOp.register 7, TableOp.create 8 41, TableOp.register 8]).factory.createEnvironment
          7 42).2
      = ((JavaEnvironmentFactory.construct 1).createEnvironment 7 40).2 ∧
    TableOp.pointersDistinct (TableOp.run (JavaEnvironmentFactory.construct 1)
      [TableOp.create 7 40, TableOp.register 7, TableOp.create 8 41]).factory :=
  ⟨(C11_context_bound_per_thread (JavaEnvironmentFactory.construct 1) 7 40 42
      [TableOp.register 7, TableOp.create 8 41, TableOp.register 8] (by decide) 1
      [TableOp.create 7 40, TableOp.register 7, TableOp.create 8 41]
      attachesFresh_example).1,
   (C11_context_bound_per_thread (JavaEnvironmentFactory.construct 1) 7 40 42
      [TableOp.register 7, TableOp.create 8 41, TableOp.register 8] (by decide) 1
      [TableOp.create 7 40, TableOp.register 7, TableOp.create 8 41]
      attachesFresh_example).2.2.2⟩

/-! ## The singleton: the remaining claims -/

namespace JavaEnvironmentFactory

theorem locate_events_no_detach (w : World) (env_path : String) (t : ThreadId) :
    detachCount t (locate w env_path).events = 0 := by
  simp only [locate, locateWin32, locateApple, appleProbe1, appleProbe2, appleProbe3]
  split_ifs <;> simp [detachCount]

theorem createInstance_launch_events (w : World) (caller : ThreadId) (classPath : String)
    (p : Process) (hp : p.s_instance = none) (hl : (locate w p.env_path).javaFound = true) :
    ∃ tail : List Event,
      (createInstance w caller classPath p).events =
        (locate w p.env_path).events ++ Event.createJavaVM (vmArgs w classPath) :: tail ∧
      ∀ args, Event.createJavaVM args ∉ tail := by
  by_cases hrc : (w.JNI_CreateJavaVM (vmArgs w classPath)).1 = JNI_OK
  · exact ⟨[Event.detachCurrentThread (w.JNI_CreateJavaVM (vmArgs w classPath)).2 caller],
      by simp [createInstance, hp, hl, launch, hrc], by simp⟩
  · exact ⟨[Event.logError (launchErrorMessage (w.JNI_CreateJavaVM (vmArgs w classPath)).1),
        Event.messageStatus ("Error while creating Java environment: " ++
          launchErrorMessage (w.JNI_CreateJavaVM (vmArgs w classPath)).1) true false],
      by simp [createInstance, hp, hl, launch, hrc], by simp⟩

end JavaEnvironmentFactory

/-- C12: for every search path `classPath` and every maximum-heap value supplied
by the application settings, whenever `createInstance` reaches the launch (no
singleton yet, runtime found), the configuration it passes to
`JNI_CreateJavaVM` is `vmArgs`, the only launch call of that `createInstance`:
exactly three options, in order `-Djava.class.path=` followed by the path,
the constant `-Xms1m`, and `-Xmx` followed by the decimal rendering of the
heap value followed by `m`; and `ignoreUnrecognized` is false. -/
theorem C12_launch_configuration (w : World) (caller : ThreadId) (classPath : String)
    (p : Process) (hp : p.s_instance = none)
    (hl : (JavaEnvironmentFactory.locate w p.env_path).javaFound = true) :
    (∀ args, Event.createJavaVM args ∈
        (JavaEnvironmentFactory.createInstance w caller classPath p).events ↔
      args = JavaEnvironmentFactory.vmArgs w classPath) ∧
    (JavaEnvironmentFactory.vmArgs w classPath).options =
      ["-Djava.class.path=" ++ classPath, "-Xms1m",
       "-Xmx" ++ to_string w.getJavaMaximumMemory ++ "m"] ∧
    (JavaEnvironmentFactory.vmArgs w classPath).nOptions = 3 ∧
    (JavaEnvironmentFactory.vmArgs w classPath).options.length = 3 ∧
    (JavaEnvironmentFactory.vmArgs w classPath).ignoreUnrecognized = false := by
  refine ⟨?_, rfl, rfl, rfl, rfl⟩
  intro args
  obtain ⟨tail, hev, htail⟩ :=
    JavaEnvironmentFactory.createInstance_launch_events w caller classPath p hp hl
  rw [hev]
  constructor
  · intro hmem
    simp only [List.mem_append, List.mem_cons] at hmem
    rcases hmem with h | h | h
    · exact absurd h (JavaEnvironmentFactory.locate_events_no_launch w p.env_path args)
    · cases h; rfl
    · exact absurd h (htail args)
  · rintro rfl
    simp

/-- Witness for C12: class path `a.jar` and 512 megabytes on a healthy macOS
machine give the options `-Djava.class.path=a.jar`, `-Xms1m`, `-Xmx512m`. -/
theorem C12_launch_configuration_witness :
    (JavaEnvironmentFactory.vmArgs (World.healthy Platform.macOS) "a.jar").options =
        ["-Djava.class.path=" ++ "a.jar", "-Xms1m",
         "-Xmx" ++ to_string (World.healthy Platform.macOS).getJavaMaximumMemory ++ "m"] ∧
    ["-Djava.class.path=" ++ "a.jar", "-Xms1m",
         "-Xmx" ++ to_string (World.healthy Platform.macOS).getJavaMaximumMemory ++ "m"]
      = ["-Djava.class.path=a.jar", "-Xms1m", "-Xmx512m"] :=
  ⟨(C12_launch_configuration (World.healthy Platform.macOS) 0 "a.jar" (Process.initial "")
      rfl (by decide)).2.1, by decide⟩

/-- C14, as stated, fails: on a machine where the runtime is found but the
launch call answers `JNI_EEXIST`, `createInstance("a.jar")` from the initial
state publishes nothing, yet the stored class path is `a.jar` afterwards; it
was empty before. -/
theorem C14_counterexample :
    (JavaEnvironmentFactory.createInstance (World.failingLaunch JNI_EEXIST) 0 "a.jar"
        (Process.initial "")).process.s_instance = none ∧
    (JavaEnvironmentFactory.createInstance (World.failingLaunch JNI_EEXIST) 0 "a.jar"
        (Process.initial "")).process.s_classPath = "a.jar" ∧
    (Process.initial "").s_classPath = "" ∧
    (JavaEnvironmentFactory.createInstance (World.failingLaunch JNI_EEXIST) 0 "a.jar"
        (Process.initial "")).process.s_classPath ≠ (Process.initial "").s_classPath := by
  refine ⟨rfl, rfl, rfl, by decide⟩

/-- C14, amended: for every state with no singleton and every path, a
`createInstance` call that fails because the locator reports not-found leaves
the singleton absent and the stored class path as it was; a call that fails
because the launch call returns a code other than `JNI_OK` leaves the
singleton absent and has stored the path of the call as the class path (the
assignment at line 82 precedes the launch). -/
theorem C14_state_after_failed_call (w : World) (caller : ThreadId) (classPath : String)
    (p : Process) (hp : p.s_instance = none) :
    ((JavaEnvironmentFactory.locate w p.env_path).javaFound = false →
      (JavaEnvironmentFactory.createInstance w caller classPath p).process.s_instance = none ∧
      (JavaEnvironmentFactory.createInstance w caller classPath p).process.s_classPath
        = p.s_classPath) ∧
    ((JavaEnvironmentFactory.locate w p.env_path).javaFound = true →
      (w.JNI_CreateJavaVM (JavaEnvironmentFactory.vmArgs w classPath)).1 ≠ JNI_OK →
      (JavaEnvironmentFactory.createInstance w caller classPath p).process.s_instance = none ∧
      (JavaEnvironmentFactory.createInstance w caller classPath p).process.s_classPath
        = classPath) := by
  constructor
  · intro hl
    simp [JavaEnvironmentFactory.createInstance, hp, hl]
  · intro hl hrc
    simp [JavaEnvironmentFactory.createInstance, hp, hl, JavaEnvironmentFactory.launch, hrc]

/-- Witness for C14 (amended): a failed locator keeps the empty class path, a
failed launch stores `a.jar`. -/
theorem C14_state_after_failed_call_witness :
    (JavaEnvironmentFactory.createInstance World.withoutJava 0 "a.jar"
        (Process.initial "")).process.s_classPath = (Process.initial "").s_classPath ∧
    (JavaEnvironmentFactory.createInstance (World.failingLaunch JNI_ENOMEM) 0 "a.jar"
        (Process.initial "")).process.s_classPath = "a.jar" :=
  ⟨((C14_state_after_failed_call World.withoutJava 0 "a.jar" (Process.initial "") rfl).1
      (by decide)).2,
   ((C14_state_after_failed_call (World.failingLaunch JNI_ENOMEM) 0 "a.jar"
      (Process.initial "") rfl).2 (by decide) (by decide)).2⟩

/-- C15: for every search path, when no singleton exists, the locator reports
found and the launch call returns `JNI_OK`, `createInstance` performs, after
the locator probes, the launch call and then one `DetachCurrentThread` on the
new runtime from the launching thread (the only detach of the call); it stores
the path as the class path and publishes a singleton for the new runtime whose
thread table has no entry for any thread; `getInstance()` afterwards returns
that singleton. -/
theorem C15_successful_launch (w : World) (caller : ThreadId) (classPath : String)
    (p : Process) (hp : p.s_instance = none)
    (hl : (JavaEnvironmentFactory.locate w p.env_path).javaFound = true)
    (hrc : (w.JNI_CreateJavaVM (JavaEnvironmentFactory.vmArgs w classPath)).1 = JNI_OK) :
    (JavaEnvironmentFactory.createInstance w caller classPath p).events =
      (JavaEnvironmentFactory.locate w p.env_path).events ++
        [Event.createJavaVM (JavaEnvironmentFactory.vmArgs w classPath),
         Event.detachCurrentThread
           (w.JNI_CreateJavaVM (JavaEnvironmentFactory.vmArgs w classPath)).2 caller] ∧
    detachCount caller (JavaEnvironmentFactory.createInstance w caller classPath p).events = 1 ∧
    (JavaEnvironmentFactory.createInstance w caller classPath p).process.s_classPath
      = classPath ∧
    (∃ factory : JavaEnvironmentFactory,
      (JavaEnvironmentFactory.createInstance w caller classPath p).process.s_instance
        = some factory ∧
      factory.m_jvm = (w.JNI_CreateJavaVM (JavaEnvironmentFactory.vmArgs w classPath)).2 ∧
      (∀ t, factory.m_threadIdToEnvAndUserCount t = none) ∧
      (JavaEnvironmentFactory.getInstance
        (JavaEnvironmentFactory.createInstance w caller classPath p).process).1
          = some factory) := by
  have hev : (JavaEnvironmentFactory.createInstance w caller classPath p).events =
      (JavaEnvironmentFactory.locate w p.env_path).events ++
        [Event.createJavaVM (JavaEnvironmentFactory.vmArgs w classPath),
         Event.detachCurrentThread
           (w.JNI_CreateJavaVM (JavaEnvironmentFactory.vmArgs w classPath)).2 caller] := by
    simp [JavaEnvironmentFactory.createInstance, hp, hl, JavaEnvironmentFactory.launch, hrc]
  have hs := JavaEnvironmentFactory.createInstance_success w caller classPath p hp hl hrc
  refine ⟨hev, ?_, ?_, ?_⟩
  · rw [hev, detachCount_append, JavaEnvironmentFactory.locate_events_no_detach]
    simp [detachCount]
  · simp [JavaEnvironmentFactory.createInstance, hp, hl, JavaEnvironmentFactory.launch, hrc]
  · exact ⟨_, hs, rfl, fun _ => rfl, by rw [JavaEnvironmentFactory.getInstance, hs]⟩

/-- Witness for C15: a healthy macOS machine, launching thread 3. -/
theorem C15_successful_launch_witness :
    detachCount 3 (JavaEnvironmentFactory.createInstance (World.healthy Platform.macOS) 3 "a.jar"
      (Process.initial "")).events = 1 ∧
    (JavaEnvironmentFactory.createInstance (World.healthy Platform.macOS) 3 "a.jar"
      (Process.initial "")).process.s_classPath = "a.jar" :=
  ⟨(C15_successful_launch (World.healthy Platform.macOS) 3 "a.jar" (Process.initial "") rfl
      (by decide) (by decide)).2.1,
   (C15_successful_launch (World.healthy Platform.macOS) 3 "a.jar" (Process.initial "") rfl
      (by decide) (by decide)).2.2.1⟩

/-- C16: for every table state and thread `T`, after
`unregisterEnvironment()` returns on `T` the entry of `T` is not present with
count 0; when `T` had an entry whose decremented count is exactly zero, the
entry is removed and the only action is one `DetachCurrentThread` on `T`; when
the decremented count is not zero, the entry stays with the same context
pointer and the decremented count, and nothing is detached (no action at
all).  The decremented count is the 32-bit result of `count - 1`: for every
count an `int` can hold it is zero exactly when the count is 1, and it is
`count - 1` itself unless the count is `INT_MIN`. -/
theorem C16_zero_count_does_not_survive_unregister (f : JavaEnvironmentFactory)
    (T : ThreadId) :
    (∀ e, (f.unregisterEnvironment T).factory.m_threadIdToEnvAndUserCount T ≠ some (e, 0)) ∧
    (∀ e c, f.m_threadIdToEnvAndUserCount T = some (e, c) → wrapInt32 (c - 1) = 0 →
      (f.unregisterEnvironment T).factory.m_threadIdToEnvAndUserCount T = none ∧
      (f.unregisterEnvironment T).events = [Event.detachCurrentThread f.m_jvm T] ∧
      detachCount T (f.unregisterEnvironment T).events = 1) ∧
    (∀ e c, f.m_threadIdToEnvAndUserCount T = some (e, c) → wrapInt32 (c - 1) ≠ 0 →
      (f.unregisterEnvironment T).factory.m_threadIdToEnvAndUserCount T
        = some (e, wrapInt32 (c - 1)) ∧
      (f.unregisterEnvironment T).events = []) ∧
    (∀ c : Int, INT_MIN ≤ c → c ≤ INT_MAX → (wrapInt32 (c - 1) = 0 ↔ c - 1 = 0)) ∧
    (∀ c : Int, INT_MIN < c → c ≤ INT_MAX → wrapInt32 (c - 1) = c - 1) ∧
    (∀ e c, f.m_threadIdToEnvAndUserCount T = some (e, c) → INT_MIN ≤ c → c ≤ INT_MAX →
      c - 1 = 0 →
      (f.unregisterEnvironment T).factory.m_threadIdToEnvAndUserCount T = none ∧
      (f.unregisterEnvironment T).events = [Event.detachCurrentThread f.m_jvm T] ∧
      detachCount T (f.unregisterEnvironment T).events = 1) ∧
    (∀ e c, f.m_threadIdToEnvAndUserCount T = some (e, c) → INT_MIN < c → c ≤ INT_MAX →
      c - 1 ≠ 0 →
      (f.unregisterEnvironment T).factory.m_threadIdToEnvAndUserCount T = some (e, c - 1) ∧
      (f.unregisterEnvironment T).events = []) := by
  have hzero : ∀ c : Int, INT_MIN ≤ c → c ≤ INT_MAX → (wrapInt32 (c - 1) = 0 ↔ c - 1 = 0) := by
    intro c h1 h2
    unfold INT_MIN at h1
    unfold INT_MAX at h2
    unfold wrapInt32
    omega
  have hsame : ∀ c : Int, INT_MIN < c → c ≤ INT_MAX → wrapInt32 (c - 1) = c - 1 := by
    intro c h1 h2
    unfold INT_MIN at h1
    unfold INT_MAX at h2
    unfold wrapInt32
    omega
  have hlast : ∀ e c, f.m_threadIdToEnvAndUserCount T = some (e, c) → wrapInt32 (c - 1) = 0 →
      (f.unregisterEnvironment T).factory.m_threadIdToEnvAndUserCount T = none ∧
      (f.unregisterEnvironment T).events = [Event.detachCurrentThread f.m_jvm T] ∧
      detachCount T (f.unregisterEnvironment T).events = 1 := by
    intro e c h hc
    simp [JavaEnvironmentFactory.unregisterEnvironment, h, hc, ThreadTable.erase, detachCount]
  have hkeep : ∀ e c, f.m_threadIdToEnvAndUserCount T = some (e, c) → wrapInt32 (c - 1) ≠ 0 →
      (f.unregisterEnvironment T).factory.m_threadIdToEnvAndUserCount T
        = some (e, wrapInt32 (c - 1)) ∧
      (f.unregisterEnvironment T).events = [] := by
    intro e c h hc
    simp [JavaEnvironmentFactory.unregisterEnvironment, h, hc, ThreadTable.set]
  refine ⟨?_, hlast, hkeep, hzero, hsame, ?_, ?_⟩
  · intro e
    simp only [JavaEnvironmentFactory.unregisterEnvironment]
    cases ht : f.m_threadIdToEnvAndUserCount T with
    | some it =>
      by_cases h0 : wrapInt32 (it.2 - 1) = 0
      · simp [h0, ThreadTable.erase]
      · simp [h0, ThreadTable.set]
    | none => simp [ht]
  · intro e c h h1 h2 hc
    exact hlast e c h ((hzero c h1 h2).2 hc)
  · intro e c h h1 h2 hc
    have hw := hsame c h1 h2
    have hk := hkeep e c h (fun hz => hc ((hzero c (le_of_lt h1) h2).1 hz))
    rw [hw] at hk
    exact hk

/-- Witness for C16: unregistering thread 7 at count 1 removes the entry and
detaches once; at count 2 the entry stays with count 1. -/
theorem C16_zero_count_does_not_survive_unregister_witness :
    ((TableOp.run (JavaEnvironmentFactory.construct 1)
        [TableOp.create 7 40, TableOp.register 7]).factory.unregisterEnvironment
          7).factory.m_threadIdToEnvAndUserCount 7 = none ∧
    ((TableOp.run (JavaEnvironmentFactory.construct 1)
        [TableOp.create 7 40, TableOp.register 7,
          TableOp.register 7]).factory.unregisterEnvironment
            7).factory.m_threadIdToEnvAndUserCount 7 = some (40, 2 - 1) :=
  ⟨((C16_zero_count_does_not_survive_unregister (TableOp.run (JavaEnvironmentFactory.construct 1)
        [TableOp.create 7 40, TableOp.register 7]).factory 7).2.2.2.2.2.1 40 1 (by decide)
        (by decide) (by decide) (by decide)).1,
   ((C16_zero_count_does_not_survive_unregister (TableOp.run (JavaEnvironmentFactory.construct 1)
        [TableOp.create 7 40, TableOp.register 7, TableOp.register 7]).factory 7).2.2.2.2.2.2
        40 2 (by decide) (by decide) (by decide) (by decide)).1⟩

/-- C17: for every table state and thread `T`: if `T` is already present,
`createEnvironment()` leaves the factory (hence every entry and every count)
exactly unchanged, performs no action, and the handle carries the stored
context pointer of `T`; if `T` is absent, the only action is one
`AttachCurrentThread` on `T`, the entry of `T` becomes the new context pointer
with count 0, the handle carries that pointer, and the entry of every other
thread is unchanged. -/
theorem C17_createEnvironment_frame (f : JavaEnvironmentFactory) (T : ThreadId)
    (attached : JNIEnvPtr) :
    (∀ e c, f.m_threadIdToEnvAndUserCount T = some (e, c) →
      (f.createEnvironment T attached).1.factory = f ∧
      (f.createEnvironment T attached).1.events = [] ∧
      (f.createEnvironment T attached).2 = { m_jvm := f.m_jvm, m_env := e }) ∧
    (f.m_threadIdToEnvAndUserCount T = none →
      (f.createEnvironment T attached).1.events = [Event.attachCurrentThread f.m_jvm T] ∧
      attachCount T (f.createEnvironment T attached).1.events = 1 ∧
      (f.createEnvironment T attached).1.factory.m_threadIdToEnvAndUserCount T
        = some (attached, 0) ∧
      (f.createEnvironment T attached).2 = { m_jvm := f.m_jvm, m_env := attached } ∧
      (f.createEnvironment T attached).1.factory.m_jvm = f.m_jvm ∧
      ∀ U, U ≠ T →
        (f.createEnvironment T attached).1.factory.m_threadIdToEnvAndUserCount U
          = f.m_threadIdToEnvAndUserCount U) := by
  constructor
  · intro e c h
    rw [TableOp.create_present f T attached e c h]
    exact ⟨rfl, rfl, rfl⟩
  · intro h
    refine ⟨?_, ?_, ?_, ?_, ?_, ?_⟩
    · simp [JavaEnvironmentFactory.createEnvironment, h]
    · simp [JavaEnvironmentFactory.createEnvironment, h, attachCount]
    · simp [JavaEnvironmentFactory.createEnvironment, h, ThreadTable.insert, ThreadTable.set]
    · simp [JavaEnvironmentFactory.createEnvironment, h]
    · simp [JavaEnvironmentFactory.createEnvironment, h]
    · intro U hU
      exact TableOp.create_other f T U attached (fun e => hU e.symm)

/-- Witness for C17: a second `createEnvironment()` on the tracked thread 7
changes nothing; the first one on the untracked thread 8 inserts `(41, 0)`. -/
theorem C17_createEnvironment_frame_witness :
    ((TableOp.run (JavaEnvironmentFactory.construct 1)
        [TableOp.create 7 40, TableOp.register 7]).factory.createEnvironment 7 42).1.factory
      = (TableOp.run (JavaEnvironmentFactory.construct 1)
        [TableOp.create 7 40, TableOp.register 7]).factory ∧
    ((TableOp.run (JavaEnvironmentFactory.construct 1)
        [TableOp.create 7 40, TableOp.register 7]).factory.createEnvironment
          8 41).1.factory.m_threadIdToEnvAndUserCount 8 = some (41, 0) :=
  ⟨((C17_createEnvironment_frame (TableOp.run (JavaEnvironmentFactory.construct 1)
        [TableOp.create 7 40, TableOp.register 7]).factory 7 42).1 40 1 (by decide)).1,
   ((C17_createEnvironment_frame (TableOp.run (JavaEnvironmentFactory.construct 1)
        [TableOp.create 7 40, TableOp.register 7]).factory 8 41).2 (by decide)).2.2.1⟩

/-- C20: for every table state and all distinct threads `T` and `U`,
`createEnvironment()`, `registerEnvironment()` and `unregisterEnvironment()`
called on `T` leave the entry of `U` (its presence, context pointer and
count) exactly unchanged. -/
theorem C20_calls_are_local_to_the_thread (f : JavaEnvironmentFactory) (T U : ThreadId)
    (attached : JNIEnvPtr) (hTU : T ≠ U) :
    (f.createEnvironment T attached).1.factory.m_threadIdToEnvAndUserCount U
        = f.m_threadIdToEnvAndUserCount U ∧
    (f.registerEnvironment T).factory.m_threadIdToEnvAndUserCount U
        = f.m_threadIdToEnvAndUserCount U ∧
    (f.unregisterEnvironment T).factory.m_threadIdToEnvAndUserCount U
        = f.m_threadIdToEnvAndUserCount U :=
  ⟨TableOp.create_other f T U attached hTU, TableOp.register_other f T U hTU,
    TableOp.unregister_other f T U hTU⟩

/-- Witness for C20: thread 8 unregisters its last use while thread 7 holds
count 1. -/
theorem C20_calls_are_local_to_the_thread_witness :
    ((TableOp.run (JavaEnvironmentFactory.construct 1)
        [TableOp.create 7 40, TableOp.register 7, TableOp.create 8 41,
          TableOp.register 8]).factory.unregisterEnvironment
            8).factory.m_threadIdToEnvAndUserCount 7
      = (TableOp.run (JavaEnvironmentFactory.construct 1)
        [TableOp.create 7 40, TableOp.register 7, TableOp.create 8 41,
          TableOp.register 8]).factory.m_threadIdToEnvAndUserCount 7 :=
  (C20_calls_are_local_to_the_thread (TableOp.run (JavaEnvironmentFactory.construct 1)
    [TableOp.create 7 40, TableOp.register 7, TableOp.create 8 41,
      TableOp.register 8]).factory 8 7 0 (by decide)).2.2

namespace TableOp

/-- Attach and detach events of one call on thread `T`, against the presence of
the entry of `T` before and after the call. -/
theorem step_balance (f : JavaEnvironmentFactory) (op : TableOp) (T : ThreadId) :
    attachCount T (step f op).events + detachCount T (step f op).events ≤ 1 ∧
    (attachCount T (step f op).events = 1 →
      f.m_threadIdToEnvAndUserCount T = none ∧
      ((step f op).factory.m_threadIdToEnvAndUserCount T).isSome = true) ∧
    (detachCount T (step f op).events = 1 →
      (f.m_threadIdToEnvAndUserCount T).isSome = true ∧
      (step f op).factory.m_threadIdToEnvAndUserCount T = none) ∧
    (attachCount T (step f op).events = 0 → detachCount T (step f op).events = 0 →
      ((step f op).factory.m_threadIdToEnvAndUserCount T).isSome
        = (f.m_threadIdToEnvAndUserCount T).isSome) := by
  cases op with
  | create t a =>
    by_cases hT : t = T
    · subst hT
      cases ht : f.m_threadIdToEnvAndUserCount t with
      | some it =>
        simp [step, JavaEnvironmentFactory.createEnvironment, ht, attachCount, detachCount]
      | none =>
        simp [step, JavaEnvironmentFactory.createEnvironment, ht, attachCount, detachCount,
          ThreadTable.insert, ThreadTable.set]
    · have ho := create_other f t T a hT
      simp only [step, ho]
      cases ht : f.m_threadIdToEnvAndUserCount t with
      | some it =>
        simp [JavaEnvironmentFactory.createEnvironment, ht, attachCount, detachCount]
      | none =>
        simp [JavaEnvironmentFactory.createEnvironment, ht, attachCount, detachCount, hT]
  | register t =>
    by_cases hT : t = T
    · subst hT
      cases ht : f.m_threadIdToEnvAndUserCount t with
      | some it =>
        simp [step, JavaEnvironmentFactory.registerEnvironment, ht, attachCount, detachCount,
          ThreadTable.set]
      | none =>
        simp [step, JavaEnvironmentFactory.registerEnvironment, ht, attachCount, detachCount]
    · have ho := register_other f t T hT
      simp only [step, ho]
      cases ht : f.m_threadIdToEnvAndUserCount t with
      | some it =>
        simp [JavaEnvironmentFactory.registerEnvironment, ht, attachCount, detachCount]
      | none =>
        simp [JavaEnvironmentFactory.registerEnvironment, ht, attachCount, detachCount]
  | unregister t =>
    by_cases hT : t = T
    · subst hT
      cases ht : f.m_threadIdToEnvAndUserCount t with
      | some it =>
        by_cases h0 : wrapInt32 (it.2 - 1) = 0
        · simp [step, JavaEnvironmentFactory.unregisterEnvironment, ht, h0, attachCount,
            detachCount, ThreadTable.erase]
        · simp [step, JavaEnvironmentFactory.unregisterEnvironment, ht, h0, attachCount,
            detachCount, ThreadTable.set]
      | none =>
        simp [step, JavaEnvironmentFactory.unregisterEnvironment, ht, attachCount, detachCount]
    · have ho := unregister_other f t T hT
      simp only [step, ho]
      cases ht : f.m_threadIdToEnvAndUserCount t with
      | some it =>
        by_cases h0 : wrapInt32 (it.2 - 1) = 0
        · simp [JavaEnvironmentFactory.unregisterEnvironment, ht, h0, attachCount,
            detachCount, hT]
        · simp [JavaEnvironmentFactory.unregisterEnvironment, ht, h0, attachCount,
            detachCount]
      | none =>
        simp [JavaEnvironmentFactory.unregisterEnvironment, ht, attachCount, detachCount]

theorem run_balance (T : ThreadId) (ops : List TableOp) :
    ∀ f : JavaEnvironmentFactory,
      attachCount T (run f ops).events +
          (if (f.m_threadIdToEnvAndUserCount T).isSome then 1 else 0) =
        detachCount T (run f ops).events +
          (if ((run f ops).factory.m_threadIdToEnvAndUserCount T).isSome then 1 else 0) := by
  induction ops with
  | nil => intro f; simp [run, attachCount, detachCount]
  | cons op rest ih =>
    intro f
    have hrest := ih (step f op).factory
    obtain ⟨hle, hatt, hdet, hsame⟩ := step_balance f op T
    simp only [run, attachCount_append, detachCount_append]
    rcases Nat.eq_zero_or_pos (attachCount T (step f op).events) with ha | ha
    · rcases Nat.eq_zero_or_pos (detachCount T (step f op).events) with hd | hd
      · rw [hsame ha hd] at hrest
        omega
      · have hd1 : detachCount T (step f op).events = 1 := by omega
        obtain ⟨h1, h2⟩ := hdet hd1
        rw [h2] at hrest
        rw [h1]
        simp only [Option.isSome_none, Bool.false_eq_true, if_false, if_true] at hrest ⊢
        omega
    · have ha1 : attachCount T (step f op).events = 1 := by omega
      have hd0 : detachCount T (step f op).events = 0 := by omega
      obtain ⟨h1, h2⟩ := hatt ha1
      rw [h2] at hrest
      rw [h1]
      simp only [Option.isSome_none, Bool.false_eq_true, if_false, if_true] at hrest ⊢
      omega

end TableOp

/-- C19: in every state reachable from the empty table by any sequence of
`createEnvironment()`, `registerEnvironment()` and `unregisterEnvironment()`
calls, for each thread `T` the number of `AttachCurrentThread` calls made on
`T` minus the number of `DetachCurrentThread` calls made on `T` is 1 if `T`
has a table entry and 0 otherwise.  Moreover any further call makes at most
one attach or detach on `T`; it attaches `T` only if `T` has no entry (so is
not attached) and detaches `T` only if `T` has an entry (so is attached). -/
theorem C19_attach_detach_balance (jvm : JavaVMPtr) (ops : List TableOp) (T : ThreadId) :
    ((attachCount T (TableOp.run (JavaEnvironmentFactory.construct jvm) ops).events : Int) -
        (detachCount T (TableOp.run (JavaEnvironmentFactory.construct jvm) ops).events : Int)
      = if ((TableOp.run (JavaEnvironmentFactory.construct jvm)
          ops).factory.m_threadIdToEnvAndUserCount T).isSome then 1 else 0) ∧
    (∀ op : TableOp,
      attachCount T (TableOp.step (TableOp.run (JavaEnvironmentFactory.construct jvm)
          ops).factory op).events +
        detachCount T (TableOp.step (TableOp.run (JavaEnvironmentFactory.construct jvm)
          ops).factory op).events ≤ 1 ∧
      (attachCount T (TableOp.step (TableOp.run (JavaEnvironmentFactory.construct jvm)
          ops).factory op).events = 1 →
        (TableOp.run (JavaEnvironmentFactory.construct jvm)
          ops).factory.m_threadIdToEnvAndUserCount T = none) ∧
      (detachCount T (TableOp.step (TableOp.run (JavaEnvironmentFactory.construct jvm)
          ops).factory op).events = 1 →
        ((TableOp.run (JavaEnvironmentFactory.construct jvm)
          ops).factory.m_threadIdToEnvAndUserCount T).isSome = true)) := by
  constructor
  · have h := TableOp.run_balance T ops (JavaEnvironmentFactory.construct jvm)
    simp only [JavaEnvironmentFactory.construct, ThreadTable.empty, Option.isSome_none,
      Bool.false_eq_true, if_false, add_zero] at h
    simp only [JavaEnvironmentFactory.construct, ThreadTable.empty]
    split
    · rename_i hs
      rw [if_pos hs] at h
      omega
    · rename_i hs
      rw [if_neg hs] at h
      omega
  · intro op
    obtain ⟨hle, hatt, hdet, _⟩ := TableOp.step_balance
      (TableOp.run (JavaEnvironmentFactory.construct jvm) ops).factory op T
    exact ⟨hle, fun h => (hatt h).1, fun h => (hdet h).1⟩

/-- C18, as stated, fails when the configured install directory is empty: the
locator then probes only the bare name, not the two candidates built from the
directory.  With nothing loading, the code makes one probe where the stated
order makes three; and when only `/libjvm.dylib` (the second candidate for an
empty directory) loads, the stated procedure reports found while the code
reports not-found. -/
theorem C18_counterexample :
    (JavaEnvironmentFactory.locate (World.noInstallDir (fun _ => false)) "").events
      = [Event.dlopen "libjvm.dylib"] ∧
    (probeInOrder (fun _ => false) (appleCandidates "")).2
      = [Event.dlopen "/jre/lib/server/libjvm.dylib", Event.dlopen "/libjvm.dylib",
         Event.dlopen "libjvm.dylib"] ∧
    (JavaEnvironmentFactory.locate
      (World.noInstallDir (fun path => path == "/libjvm.dylib")) "").javaFound = false ∧
    (probeInOrder (fun path => path == "/libjvm.dylib") (appleCandidates "")).1 = true := by
  refine ⟨by decide, by decide, by decide, by decide⟩

/-- C18, amended: on the dlopen platform (only the `__APPLE__` block compiled
in), for every non-empty configured install directory `d` and every outcome of
the load oracle, the locator probes `d + "/jre/lib/server/libjvm.dylib"`, then
`d + "/libjvm.dylib"`, then the bare name `libjvm.dylib`, stopping at the
first candidate that loads; when `d` is empty it probes the bare name only.
In both cases it reports found if and only if some probed candidate loads,
and it leaves the environment variable alone. -/
theorem C18_dlopen_locator_order (w : World) (env_path : String)
    (hw : w.platform.win32 = false) (ha : w.platform.apple = true) :
    (w.getJavaPath.length ≠ 0 →
      (JavaEnvironmentFactory.locate w env_path).javaFound
        = (probeInOrder w.dlopen (appleCandidates w.getJavaPath)).1 ∧
      (JavaEnvironmentFactory.locate w env_path).events
        = (probeInOrder w.dlopen (appleCandidates w.getJavaPath)).2) ∧
    (w.getJavaPath.length = 0 →
      (JavaEnvironmentFactory.locate w env_path).javaFound
        = (probeInOrder w.dlopen ["libjvm.dylib"]).1 ∧
      (JavaEnvironmentFactory.locate w env_path).events
        = (probeInOrder w.dlopen ["libjvm.dylib"]).2) ∧
    ((JavaEnvironmentFactory.locate w env_path).javaFound = true ↔
      ∃ c, Event.dlopen c ∈ (JavaEnvironmentFactory.locate w env_path).events ∧
        w.dlopen c = true) ∧
    (JavaEnvironmentFactory.locate w env_path).env_path = env_path := by
  refine ⟨?_, ?_, ?_, ?_⟩
  · intro hd
    cases h1 : w.dlopen (w.getJavaPath ++ "/jre/lib/server/libjvm.dylib") <;>
      cases h2 : w.dlopen (w.getJavaPath ++ "/libjvm.dylib") <;>
      cases h3 : w.dlopen "libjvm.dylib" <;>
      simp [JavaEnvironmentFactory.locate, JavaEnvironmentFactory.locateApple,
        JavaEnvironmentFactory.appleProbe1, JavaEnvironmentFactory.appleProbe2,
        JavaEnvironmentFactory.appleProbe3, probeInOrder, appleCandidates, hw, ha, hd,
        h1, h2, h3]
  · intro hd
    cases h3 : w.dlopen "libjvm.dylib" <;>
      simp [JavaEnvironmentFactory.locate, JavaEnvironmentFactory.locateApple,
        JavaEnvironmentFactory.appleProbe1, JavaEnvironmentFactory.appleProbe2,
        JavaEnvironmentFactory.appleProbe3, probeInOrder, hw, ha, hd, h3]
  · by_cases hd : w.getJavaPath.length = 0
    · cases h3 : w.dlopen "libjvm.dylib" <;>
        simp [JavaEnvironmentFactory.locate, JavaEnvironmentFactory.locateApple,
          JavaEnvironmentFactory.appleProbe1, JavaEnvironmentFactory.appleProbe2,
          JavaEnvironmentFactory.appleProbe3, hw, ha, hd, h3]
    · cases h1 : w.dlopen (w.getJavaPath ++ "/jre/lib/server/libjvm.dylib") <;>
        cases h2 : w.dlopen (w.getJavaPath ++ "/libjvm.dylib") <;>
        cases h3 : w.dlopen "libjvm.dylib" <;>
        simp [JavaEnvironmentFactory.locate, JavaEnvironmentFactory.locateApple,
          JavaEnvironmentFactory.appleProbe1, JavaEnvironmentFactory.appleProbe2,
          JavaEnvironmentFactory.appleProbe3, hw, ha, hd, h1, h2, h3]
  · simp only [JavaEnvironmentFactory.locate, JavaEnvironmentFactory.locateApple, hw, ha]
    rfl

/-- Witness for C18 (amended): with the install directory `/opt/java` on a
machine where every library loads, the first candidate is probed and found. -/
theorem C18_dlopen_locator_order_witness :
    (JavaEnvironmentFactory.locate (World.healthy Platform.macOS) "").events
      = (probeInOrder (World.healthy Platform.macOS).dlopen
          (appleCandidates (World.healthy Platform.macOS).getJavaPath)).2 ∧
    (probeInOrder (World.healthy Platform.macOS).dlopen
        (appleCandidates (World.healthy Platform.macOS).getJavaPath)).2
      = [Event.dlopen "/opt/java/jre/lib/server/libjvm.dylib"] :=
  ⟨((C18_dlopen_locator_order (World.healthy Platform.macOS) "" rfl rfl).1 (by decide)).2,
   by decide⟩

/-- Witness for C19: after create, register, unregister, create on thread 7
there were two attaches and one detach on it, and it has an entry. -/
theorem C19_attach_detach_balance_witness :
    (attachCount 7 (TableOp.run (JavaEnvironmentFactory.construct 1)
        [TableOp.create 7 40, TableOp.register 7, TableOp.unregister 7,
          TableOp.create 7 41]).events : Int) -
      (detachCount 7 (TableOp.run (JavaEnvironmentFactory.construct 1)
        [TableOp.create 7 40, TableOp.register 7, TableOp.unregister 7,
          TableOp.create 7 41]).events : Int)
      = if ((TableOp.run (JavaEnvironmentFactory.construct 1)
          [TableOp.create 7 40, TableOp.register 7, TableOp.unregister 7,
            TableOp.create 7 41]).factory.m_threadIdToEnvAndUserCount 7).isSome then 1 else 0 :=
  (C19_attach_detach_balance 1
    [TableOp.create 7 40, TableOp.register 7, TableOp.unregister 7, TableOp.create 7 41] 7).1

/-! ## Overlapping `createInstance` calls: the claim -/

namespace Threads

/-- The two steps of a call whose test finds no instance are, together, the
`createInstance` call itself. -/
theorem afterNullCheck_eq_createInstance (w : World) (caller : ThreadId) (classPath : String)
    (p : Process) (hp : p.s_instance = none) :
    JavaEnvironmentFactory.afterNullCheck w caller classPath p
      = JavaEnvironmentFactory.createInstance w caller classPath p := by
  simp [JavaEnvironmentFactory.afterNullCheck, JavaEnvironmentFactory.createInstance, hp]

/-- A call that runs alone, both steps in a row, does what `createInstance` does. -/
theorem single_call_is_createInstance (c : Call) (p : Process) :
    (runSchedule (start p [c]) [0, 0]).process
        = (JavaEnvironmentFactory.createInstance c.world c.caller c.classPath p).process ∧
    (runSchedule (start p [c]) [0, 0]).events
        = (JavaEnvironmentFactory.createInstance c.world c.caller c.classPath p).events := by
  cases hp : p.s_instance with
  | none =>
    simp [runSchedule, start, advance, hp, afterNullCheck_eq_createInstance]
  | some f =>
    simp [runSchedule, start, advance, hp]

end Threads

/-- C13, evaluated at two overlapping first calls of `createInstance("a.jar")` on
a healthy macOS machine, from the initial state.  When both calls pass the
test of `s_instance` before either launches (schedule 0, 1, 0, 1), the launch
call is invoked twice, by both; when the calls do not overlap (schedule
0, 0, 1, 1) it is invoked once.  If the runtime answers the second launch
with `JNI_EEXIST`, the second caller neither observes the instance nor
reports a conflict: it reports a launch failure.  So it is not the case that
under every schedule at most one launch call is made. -/
theorem C13_overlapping_first_calls_launch_twice :
    launchCount (Threads.runSchedule (Threads.start (Process.initial "")
      [{ world := World.healthy Platform.macOS, caller := 0, classPath := "a.jar" },
       { world := World.healthy Platform.macOS, caller := 1, classPath := "a.jar" }])
      [0, 1, 0, 1]).events = 2 ∧
    (Threads.runSchedule (Threads.start (Process.initial "")
      [{ world := World.healthy Platform.macOS, caller := 0, classPath := "a.jar" },
       { world := World.healthy Platform.macOS, caller := 1, classPath := "a.jar" }])
      [0, 1, 0, 1]).events =
      [Event.dlopen "/opt/java/jre/lib/server/libjvm.dylib",
       Event.createJavaVM (JavaEnvironmentFactory.vmArgs (World.healthy Platform.macOS) "a.jar"),
       Event.detachCurrentThread 1 0,
       Event.dlopen "/opt/java/jre/lib/server/libjvm.dylib",
       Event.createJavaVM (JavaEnvironmentFactory.vmArgs (World.healthy Platform.macOS) "a.jar"),
       Event.detachCurrentThread 1 1] ∧
    launchCount (Threads.runSchedule (Threads.start (Process.initial "")
      [{ world := World.healthy Platform.macOS, caller := 0, classPath := "a.jar" },
       { world := World.healthy Platform.macOS, caller := 1, classPath := "a.jar" }])
      [0, 0, 1, 1]).events = 1 ∧
    (Threads.runSchedule (Threads.start (Process.initial "")
      [{ world := World.healthy Platform.macOS, caller := 0, classPath := "a.jar" },
       { world := World.failingLaunch JNI_EEXIST, caller := 1, classPath := "a.jar" }])
      [0, 1, 0, 1]).events =
      [Event.dlopen "/opt/java/jre/lib/server/libjvm.dylib",
       Event.createJavaVM (JavaEnvironmentFactory.vmArgs (World.healthy Platform.macOS) "a.jar"),
       Event.detachCurrentThread 1 0,
       Event.dlopen "/opt/java/jre/lib/server/libjvm.dylib",
       Event.createJavaVM
         (JavaEnvironmentFactory.vmArgs (World.failingLaunch JNI_EEXIST) "a.jar"),
       Event.logError "the process can only launch one JVM an not more",
       Event.messageStatus
         "Error while creating Java environment: the process can only launch one JVM an not more"
         true false] ∧
    ¬ ∀ schedule : List Nat,
      launchCount (Threads.runSchedule (Threads.start (Process.initial "")
        [{ world := World.healthy Platform.macOS, caller := 0, classPath := "a.jar" },
         { world := World.healthy Platform.macOS, caller := 1, classPath := "a.jar" }])
        schedule).events ≤ 1 := by
  refine ⟨by decide, by decide, by decide, by decide, fun h => ?_⟩
  have h2 := h [0, 1, 0, 1]
  revert h2
  decide
